import Mathlib

/-!
# Tempest image relay: the `/fetch-photo` handler of `main.go`

A shallow embedding of the relay handler registered in `main` and of
`sendJSONError`.

* Go strings are Lean strings (text is taken to be valid UTF-8), Go `int` is
  `Int`, byte slices are lists of `UInt8`.
* The handler's effects on its `http.ResponseWriter` are kept as the ordered
  list of calls its code makes (`Call`); the writer (`ResponseRecorder`) turns
  such a list into the response the client sees, following the server of
  `net/http`: the first `WriteHeader` with a final status fixes status and
  headers, a `Write` without one implies status 200, a status code outside
  100..999 makes `WriteHeader` panic, which ends the handler and closes the
  connection with nothing sent, a 1xx code other than 101 only sends an
  informational response, and no body is sent with a 1xx, 204 or 304 status.
* What lies outside the repository is an explicit parameter (`Env`): whether
  `net/url` accepts the upstream URL, and what `client.Do` returns.
* The `fmt.Printf` log lines go to standard output only and are left out.
-/

namespace Tempest

/-! ## Data -/

/-- Byte slices. -/
abbrev Bytes := List UInt8

/-- UTF-8 bytes of a string. -/
def utf8 (s : String) : Bytes := s.data.flatMap String.utf8EncodeChar

/-- Go's `map[string][]string`, the type under `http.Header` and `url.Values`. -/
abbrev Header := List (String × List String)

/-- The `Get` method of `http.Header` and `url.Values`: the first value stored under the key,
and the empty string when there is none. -/
def Header.Get (h : Header) (key : String) : String :=
  match h.lookup key with
  | some (v :: _) => v
  | _ => ""

/-- The `Set` method of `http.Header`: the key now holds the single value given. -/
def Header.Set (h : Header) (key value : String) : Header :=
  (key, [value]) :: h.filter (fun kv => kv.1 != key)

/-- Status codes of `net/http` used by the handler. -/
def StatusOK : Int := 200
/-- Status 400. -/
def StatusBadRequest : Int := 400
/-- Status 401. -/
def StatusUnauthorized : Int := 401
/-- Status 403. -/
def StatusForbidden : Int := 403
/-- Status 404. -/
def StatusNotFound : Int := 404
/-- Status 408. -/
def StatusRequestTimeout : Int := 408
/-- Status 500. -/
def StatusInternalServerError : Int := 500
/-- Status 503. -/
def StatusServiceUnavailable : Int := 503

/-- The struct `ErrorResponse`. -/
structure ErrorResponse where
  Error : String
  Details : String
  Status : Int
  deriving DecidableEq, Repr

/-! ## JSON encoding of `ErrorResponse` -/

/-- A JSON scalar as it occurs in an encoded `ErrorResponse`. -/
inductive JSONValue where
  | str (s : String)
  | num (n : Int)
  deriving DecidableEq, Repr

/-- A JSON object: its members in order. -/
abbrev JSONObject := List (String × JSONValue)

/-- The members `encoding/json` emits for an `ErrorResponse`, following the struct tags
`json:"error"`, `json:"details,omitempty"` and `json:"status"`. -/
def ErrorResponse.marshal (e : ErrorResponse) : JSONObject :=
  [("error", .str e.Error)]
    ++ (if e.Details = "" then [] else [("details", .str e.Details)])
    ++ [("status", .num e.Status)]

/-- The verb `%d` of `fmt.Sprintf`, and the text of a JSON integer: decimal digits with a
leading minus sign for a negative number. -/
def formatInt (n : Int) : String :=
  match n with
  | Int.ofNat m => Nat.repr m
  | Int.negSucc m => "-" ++ Nat.repr (m + 1)

/-- Hexadecimal digit, lower case. -/
def hexDigit (n : Nat) : Char := Nat.digitChar n

/-- The text `encoding/json` writes for one character of a string, with HTML escaping on as it
is for an `Encoder`. -/
def escapeChar (c : Char) : String :=
  if c = '"' then "\\\""
  else if c = '\\' then "\\\\"
  else if c = '\n' then "\\n"
  else if c = '\r' then "\\r"
  else if c = '\t' then "\\t"
  else if c.toNat = 8 then "\\b"
  else if c.toNat = 12 then "\\f"
  else if c.toNat < 32 ∨ c = '<' ∨ c = '>' ∨ c = '&' then
    "\\u00" ++ String.mk [hexDigit (c.toNat / 16), hexDigit (c.toNat % 16)]
  else if c.toNat = 0x2028 then "\\u2028"
  else if c.toNat = 0x2029 then "\\u2029"
  else String.singleton c

/-- A JSON string literal. -/
def renderString (s : String) : String :=
  "\"" ++ String.join (s.data.map escapeChar) ++ "\""

/-- A JSON scalar as text. -/
def JSONValue.render : JSONValue → String
  | .str s => renderString s
  | .num n => formatInt n

/-- A JSON object as text, without white space, members in order. -/
def renderObject (o : JSONObject) : String :=
  "\x7b" ++ String.intercalate "," (o.map (fun kv => renderString kv.1 ++ ":" ++ kv.2.render))
    ++ "\x7d"

/-- What `json.NewEncoder(w).Encode(v)` writes for an `ErrorResponse`: the object and a
newline. -/
def Encode (v : ErrorResponse) : Bytes := utf8 (renderObject v.marshal ++ "\n")

/-! ## The response writer -/

/-- The calls the handler makes on its `http.ResponseWriter`. -/
inductive Call where
  /-- The call `w.Header().Set(key, value)`. -/
  | headerSet (key value : String)
  /-- The call `w.WriteHeader(statusCode)`. -/
  | writeHeader (statusCode : Int)
  /-- The call `json.NewEncoder(w).Encode(v)`. -/
  | encode (v : ErrorResponse)
  /-- The call `io.Copy(w, body)`; `body` lists the chunks the reader yields before it ends. -/
  | copy (body : List Bytes)
  deriving DecidableEq, Repr

/-- The function `bodyAllowedForStatus` of `net/http`: no body goes with a 1xx, 204 or 304
status. -/
def bodyAllowedForStatus (status : Int) : Bool :=
  if 100 ≤ status ∧ status ≤ 199 then false
  else if status = 204 then false
  else if status = 304 then false
  else true

/-- The function `suppressedHeaders` of `net/http`: the headers the server drops for a status
without a body. -/
def suppressedHeaders (status : Int) : List String :=
  if status = 304 then ["Content-Type", "Content-Length", "Transfer-Encoding"]
  else if bodyAllowedForStatus status then []
  else ["Content-Length", "Transfer-Encoding"]

/-- The response writer of the server, as far as the handler's calls act on it. -/
structure ResponseRecorder where
  /-- The map returned by `Header()`. -/
  HeaderMap : Header
  /-- Whether the status line has been fixed. -/
  wroteHeader : Bool
  /-- The status code; 200 until `WriteHeader` says otherwise. -/
  Code : Int
  /-- The headers as they were when the status line was fixed. -/
  snapHeader : Header
  /-- The bytes written so far. -/
  Body : Bytes
  /-- The 1xx status codes sent as informational responses ahead of the response. -/
  informational : List Int
  /-- Whether a call on the writer has panicked: the handler has ended there. -/
  panicked : Bool
  deriving DecidableEq, Repr

/-- A fresh writer, as the server hands to a handler. -/
def ResponseRecorder.fresh : ResponseRecorder :=
  { HeaderMap := [], wroteHeader := false, Code := 200, snapHeader := [], Body := [],
    informational := [], panicked := false }

/-- The method `WriteHeader`. A call after the status line is fixed does nothing; a code
outside 100..999 panics (`checkWriteHeaderCode`); a 1xx code other than 101 sends an
informational response and leaves the status open; any other code fixes the status code and
the headers. -/
def ResponseRecorder.WriteHeader (rw : ResponseRecorder) (code : Int) : ResponseRecorder :=
  if rw.wroteHeader then rw
  else if code < 100 ∨ code > 999 then { rw with panicked := true }
  else if 100 ≤ code ∧ code ≤ 199 ∧ code ≠ 101 then
    { rw with informational := rw.informational ++ [code] }
  else { rw with Code := code, wroteHeader := true, snapHeader := rw.HeaderMap }

/-- The method `Write`: implies `WriteHeader(200)` when no status was written, then appends
the bytes when the status allows a body and drops them (`ErrBodyNotAllowed`) when not. -/
def ResponseRecorder.Write (rw : ResponseRecorder) (buf : Bytes) : ResponseRecorder :=
  let rw1 := rw.WriteHeader 200
  if bodyAllowedForStatus rw1.Code then { rw1 with Body := rw1.Body ++ buf } else rw1

/-- One call applied to the writer; after a panic the handler makes no further call. -/
def ResponseRecorder.apply (rw : ResponseRecorder) (c : Call) : ResponseRecorder :=
  if rw.panicked then rw
  else
    match c with
    | .headerSet key value => { rw with HeaderMap := rw.HeaderMap.Set key value }
    | .writeHeader code => rw.WriteHeader code
    | .encode v => rw.Write (Encode v)
    | .copy body => body.foldl ResponseRecorder.Write rw

/-- What the client receives. -/
structure ClientResponse where
  StatusCode : Int
  Header : Header
  Body : Bytes
  deriving DecidableEq, Repr

/-- What the client gets when the handler panics before anything is sent: the server closes
the connection, and there is no status line, no header and no body. The status code 0, which no
response can carry, marks it. -/
def noResponse : ClientResponse :=
  { StatusCode := 0, Header := [], Body := [] }

/-- The response after the handler has ended: none after a panic; otherwise the status code,
the headers of the handler that the server does not drop for that status, and the body. -/
def ResponseRecorder.Result (rw : ResponseRecorder) : ClientResponse :=
  if rw.panicked then noResponse
  else
    { StatusCode := rw.Code
      Header := (if rw.wroteHeader then rw.snapHeader else rw.HeaderMap).filter
        (fun kv => !(suppressedHeaders rw.Code).contains kv.1)
      Body := rw.Body }

/-- The response a list of calls on a fresh writer produces. -/
def respond (calls : List Call) : ClientResponse :=
  (calls.foldl ResponseRecorder.apply ResponseRecorder.fresh).Result

/-- Whether a list of calls on a fresh writer ends in a panic. -/
def panics (calls : List Call) : Bool :=
  (calls.foldl ResponseRecorder.apply ResponseRecorder.fresh).panicked

/-- The function `sendJSONError`, as the calls it makes on `w`. -/
def sendJSONError (message details : String) (statusCode : Int) : List Call :=
  [ .headerSet "Content-Type" "application/json",
    .writeHeader statusCode,
    .encode { Error := message, Details := details, Status := statusCode } ]

/-! ## The upstream side -/

/-- A `time.Duration` of one second, in nanoseconds. -/
def Second : Nat := 1000000000

/-- The context made by `context.WithTimeout(context.Background(), timeout)`. -/
structure Context where
  timeout : Nat
  deriving DecidableEq, Repr

/-- The value of `ctx.Err()`. -/
inductive CtxErr where
  | none
  | Canceled
  | DeadlineExceeded
  deriving DecidableEq, Repr

/-- An outbound `*http.Request`. -/
structure OutRequest where
  ctx : Context
  Method : String
  URL : String
  deriving DecidableEq, Repr

/-- The `*http.Response` of the upstream, as far as the handler reads it. -/
structure UpstreamResponse where
  StatusCode : Int
  Header : Header
  /-- The chunks `resp.Body` yields before it ends. -/
  Body : List Bytes
  deriving DecidableEq, Repr

/-- What `client.Do(req)` returns. -/
inductive DoResult where
  /-- A non-nil `err` with its text, and the value `ctx.Err()` has when the handler reads it. -/
  | failure (err : String) (ctxErr : CtxErr)
  /-- A response and a nil `err`. -/
  | response (resp : UpstreamResponse)
  deriving DecidableEq, Repr

/-- What the handler does not control. -/
structure Env where
  /-- The error text of `net/url` for a raw URL it rejects, `none` for one it accepts. -/
  parseError : String → Option String
  /-- The outcome of `client.Do`. -/
  Do : OutRequest → DoResult

/-- The function `http.NewRequestWithContext` for a valid method and a non-nil context: it fails
exactly when the URL does not parse. -/
def NewRequestWithContext (env : Env) (ctx : Context) (method url : String) :
    Except String OutRequest :=
  match env.parseError url with
  | some err => .error err
  | none => .ok { ctx := ctx, Method := method, URL := url }

/-- The calls the handler makes towards the upstream. -/
inductive UpstreamCall where
  /-- A call of `http.NewRequestWithContext`. -/
  | newRequest (ctx : Context) (method url : String)
  /-- A call of `client.Do`. -/
  | clientDo (req : OutRequest)
  deriving DecidableEq, Repr

/-- The inbound `*http.Request`, as far as the handler reads it. -/
structure Request where
  /-- The value of `r.URL.Query()`. -/
  Query : Header
  RemoteAddr : String
  deriving DecidableEq, Repr

/-- One execution of the handler: its calls on `w` and its calls towards the upstream, each in
order. -/
structure Run where
  calls : List Call
  upstream : List UpstreamCall
  deriving DecidableEq, Repr

/-! ## The handler -/

/-- The text before the identifier in the upstream URL. -/
def apiHead : String :=
  "https://us-central1-htempest-preproduction-prod.cloudfunctions.net/ImageApiProxy/image/"

/-- The query string of the upstream URL template. -/
def apiQuery : String :=
  "exifrotate=1&MaxSize=9999&ProofWatermark=FALSE&source=G&WithCrop=TRUE"

/-- The value of `apiURL`: `fmt.Sprintf` puts the identifier, as it is, where the format has
`%s`. -/
def apiURL (photoId : String) : String :=
  apiHead ++ photoId ++ ("/preview/?" ++ apiQuery)

/-- Handles `/fetch-photo`. -/
def fetchPhoto (env : Env) (r : Request) : Run :=
  let photoId := r.Query.Get "id"
  if photoId = "" then
    { calls := sendJSONError "Image ID required" "Please provide a valid image identifier"
        StatusBadRequest
      upstream := [] }
  else
    let ctx : Context := { timeout := 20 * Second }
    match NewRequestWithContext env ctx "GET" (apiURL photoId) with
    | .error err =>
      { calls := sendJSONError "Request creation failed"
          ("Unable to create API request: " ++ err) StatusInternalServerError
        upstream := [.newRequest ctx "GET" (apiURL photoId)] }
    | .ok req =>
      let upstream := [.newRequest ctx "GET" (apiURL photoId), .clientDo req]
      match env.Do req with
      | .failure err ctxErr =>
        if ctxErr = CtxErr.DeadlineExceeded then
          { calls := sendJSONError "Request timeout"
              "The image request took too long to process (>20s). The image may be very large."
              StatusRequestTimeout
            upstream := upstream }
        else
          { calls := sendJSONError "Connection failed"
              ("Unable to connect to Tempest API: " ++ err) StatusInternalServerError
            upstream := upstream }
      | .response resp =>
        if resp.StatusCode = 204 then
          { calls := sendJSONError "Image not found"
              ("The image ID '" ++ photoId ++ "' was not found in the Tempest system")
              StatusNotFound
            upstream := upstream }
        else if resp.StatusCode = StatusOK then
          { calls :=
              [ .headerSet "Content-Type" (resp.Header.Get "Content-Type"),
                .headerSet "Cache-Control" "public, max-age=3600",
                .copy resp.Body ]
            upstream := upstream }
        else if resp.StatusCode = StatusForbidden then
          { calls := sendJSONError "Access denied"
              ("You don't have permission to access image '" ++ photoId ++ "'") StatusForbidden
            upstream := upstream }
        else if resp.StatusCode = StatusUnauthorized then
          { calls := sendJSONError "Authentication required"
              "The request requires valid authentication credentials" StatusUnauthorized
            upstream := upstream }
        else if resp.StatusCode = StatusInternalServerError then
          { calls := sendJSONError "Tempest API error"
              "The upstream image service is currently experiencing issues"
              StatusInternalServerError
            upstream := upstream }
        else if resp.StatusCode = StatusServiceUnavailable then
          { calls := sendJSONError "Service unavailable"
              "The Tempest API is temporarily unavailable. Please try again later."
              StatusServiceUnavailable
            upstream := upstream }
        else
          { calls := sendJSONError "Unexpected error"
              ("Tempest API returned status " ++ formatInt resp.StatusCode) resp.StatusCode
            upstream := upstream }

/-- The response the client of `/fetch-photo` receives. -/
def fetchPhotoResponse (env : Env) (r : Request) : ClientResponse :=
  respond (fetchPhoto env r).calls

/-- Whether the handler of `/fetch-photo` panics. -/
def fetchPhotoPanics (env : Env) (r : Request) : Bool :=
  panics (fetchPhoto env r).calls

/-- The request the handler builds for an identifier: method `GET`, the URL of `apiURL`, and a
context with a deadline of 20 seconds. -/
def builtRequest (photoId : String) : OutRequest :=
  { ctx := { timeout := 20 * Second }, Method := "GET", URL := apiURL photoId }

/-! ## Reading a URL

The split `net/url` makes of a raw URL: the fragment starts at the first `#`, the query at the
first `?` before it. -/

/-- The function `strings.Cut` for a one-character separator: the text before its first
occurrence and the text after it. -/
def cut (sep : Char) (s : List Char) : List Char × List Char :=
  (s.takeWhile (fun c => c != sep), (s.dropWhile (fun c => c != sep)).drop 1)

/-- The raw query of a URL: what follows the first `?`, up to the fragment. -/
def rawQuery (url : String) : String :=
  String.mk (cut '?' (cut '#' url.data).1).2

/-- What a URL has before its query and fragment: scheme, host and path. -/
def beforeQuery (url : String) : String :=
  String.mk (cut '?' (cut '#' url.data).1).1

/-! ## The error taxonomy of the specification -/

/-- The error kinds of the specification. -/
inductive ErrorKind where
  | missing_identifier
  | request_construction_failure
  | connection_failure
  | timeout
  | not_found
  | access_denied
  | authentication_required
  | upstream_internal_error
  | upstream_unavailable
  | unexpected_upstream_status
  deriving DecidableEq, Repr

/-- The error kind a request falls into, by the conditions of the specification's status
mapping; `none` for a request that succeeds. -/
def errorKind (env : Env) (r : Request) : Option ErrorKind :=
  if r.Query.Get "id" = "" then some .missing_identifier
  else
    match NewRequestWithContext env { timeout := 20 * Second } "GET"
        (apiURL (r.Query.Get "id")) with
    | .error _ => some .request_construction_failure
    | .ok req =>
      match env.Do req with
      | .failure _ ctxErr =>
        if ctxErr = CtxErr.DeadlineExceeded then some .timeout else some .connection_failure
      | .response resp =>
        if resp.StatusCode = 204 then some .not_found
        else if resp.StatusCode = 200 then none
        else if resp.StatusCode = 403 then some .access_denied
        else if resp.StatusCode = 401 then some .authentication_required
        else if resp.StatusCode = 500 then some .upstream_internal_error
        else if resp.StatusCode = 503 then some .upstream_unavailable
        else some .unexpected_upstream_status

/-- The status the specification's table gives an error kind; `none` for
`unexpected_upstream_status`, whose row says "same numeric status". -/
def kindStatus : ErrorKind → Option Int
  | .missing_identifier => some 400
  | .request_construction_failure => some 500
  | .connection_failure => some 500
  | .timeout => some 408
  | .not_found => some 404
  | .access_denied => some 403
  | .authentication_required => some 401
  | .upstream_internal_error => some 500
  | .upstream_unavailable => some 503
  | .unexpected_upstream_status => none

/-- Whether the identifier is non-empty and the upstream replied with status 200. -/
def upstreamReplied200 (env : Env) (r : Request) : Bool :=
  if r.Query.Get "id" = "" then false
  else
    match NewRequestWithContext env { timeout := 20 * Second } "GET"
        (apiURL (r.Query.Get "id")) with
    | .error _ => false
    | .ok req =>
      match env.Do req with
      | .failure _ _ => false
      | .response resp => resp.StatusCode == 200

/-- The failing form of a run: the request falls into an error kind, the handler's calls are
those of one `sendJSONError` with a status other than 200, and that status is the one of the
kind (the upstream's own code for an unexpected status). -/
def FailureForm (env : Env) (r : Request) : Prop :=
  ∃ (k : ErrorKind) (message details : String) (statusCode : Int),
    errorKind env r = some k ∧ upstreamReplied200 env r = false ∧
    (fetchPhoto env r).calls = sendJSONError message details statusCode ∧
    statusCode ≠ 200 ∧
    (∀ s, kindStatus k = some s → statusCode = s) ∧
    (kindStatus k = none → ∃ resp,
      env.Do (builtRequest (r.Query.Get "id")) = .response resp ∧
      statusCode = resp.StatusCode)

/-- The succeeding form of a run: the upstream replied 200 and the calls are those of the
success path. -/
def SuccessForm (env : Env) (r : Request) : Prop :=
  ∃ resp, errorKind env r = none ∧ upstreamReplied200 env r = true ∧
    r.Query.Get "id" ≠ "" ∧
    env.Do (builtRequest (r.Query.Get "id")) = .response resp ∧ resp.StatusCode = 200 ∧
    (fetchPhoto env r).calls =
      [ .headerSet "Content-Type" (resp.Header.Get "Content-Type"),
        .headerSet "Cache-Control" "public, max-age=3600",
        .copy resp.Body ]

/-! ## Counting and ordering -/

/-- The `error` member of the `ErrorResponse` a run encodes; `none` for a run that encodes
none. -/
def Run.errorField (run : Run) : Option String :=
  run.calls.findSome? (fun c => match c with
    | .encode v => some v.Error
    | _ => none)

/-- The message the handler passes to `sendJSONError` in the branch of each error kind. -/
def kindMessage : ErrorKind → String
  | .missing_identifier => "Image ID required"
  | .request_construction_failure => "Request creation failed"
  | .connection_failure => "Connection failed"
  | .timeout => "Request timeout"
  | .not_found => "Image not found"
  | .access_denied => "Access denied"
  | .authentication_required => "Authentication required"
  | .upstream_internal_error => "Tempest API error"
  | .upstream_unavailable => "Service unavailable"
  | .unexpected_upstream_status => "Unexpected error"

/-- The part of the response a call writes: 0 for a header, 1 for the status line, 2 for the
body. -/
def Call.phase : Call → Nat
  | .headerSet _ _ => 0
  | .writeHeader _ => 1
  | .encode _ => 2
  | .copy _ => 2

/-! ## Sample inputs -/

/-- A request whose query is `id=<photoId>`. -/
def requestFor (photoId : String) : Request :=
  { Query := [("id", [photoId])], RemoteAddr := "203.0.113.7:40000" }

/-- An upstream that answers every request with the given status code, a JPEG content type and
a three-byte body in two chunks. -/
def upstreamReplying (statusCode : Int) : Env :=
  { parseError := fun _ => none
    Do := fun _ => .response
      { StatusCode := statusCode, Header := [("Content-Type", ["image/jpeg"])],
        Body := [[255, 216], [255]] } }

/-- An upstream whose call fails with the given value of `ctx.Err()`. -/
def upstreamFailing (ctxErr : CtxErr) : Env :=
  { parseError := fun _ => none
    Do := fun _ => .failure "dial tcp: connection refused" ctxErr }

/-! ## Lemmas -/

/-- A status from 200 on, other than 204 and 304, allows a body. -/
theorem bodyAllowedForStatus_of_final (code : Int)
    (h : 200 ≤ code ∧ code ≠ 204 ∧ code ≠ 304) : bodyAllowedForStatus code = true := by
  obtain ⟨h1, h2, h3⟩ := h
  have h4 : ¬ (100 ≤ code ∧ code ≤ 199) := by omega
  simp [bodyAllowedForStatus, h2, h3, h4]

/-- The server drops no header for a status that allows a body. -/
theorem suppressedHeaders_of_final (code : Int)
    (h : 200 ≤ code ∧ code ≠ 204 ∧ code ≠ 304) : suppressedHeaders code = [] := by
  simp [suppressedHeaders, h.2.2, bodyAllowedForStatus_of_final code h]

/-- The writer after the calls of `sendJSONError` with a status code in 200..999: the status
line is fixed with that code and the JSON content type, and the body is the encoded object when
the status allows a body and empty when not. -/
theorem foldl_sendJSONError (message details : String) (statusCode : Int)
    (hc : 200 ≤ statusCode ∧ statusCode ≤ 999) :
    (sendJSONError message details statusCode).foldl ResponseRecorder.apply
        ResponseRecorder.fresh =
      { HeaderMap := [("Content-Type", ["application/json"])]
        wroteHeader := true
        Code := statusCode
        snapHeader := [("Content-Type", ["application/json"])]
        Body := if bodyAllowedForStatus statusCode then
            Encode { Error := message, Details := details, Status := statusCode }
          else []
        informational := []
        panicked := false } := by
  obtain ⟨h1, h2⟩ := hc
  have hA : ¬ (statusCode < 100 ∨ statusCode > 999) := by omega
  have hB : ¬ (100 ≤ statusCode ∧ statusCode ≤ 199 ∧ statusCode ≠ 101) := by omega
  simp only [sendJSONError, List.foldl_cons, List.foldl_nil, ResponseRecorder.apply,
    ResponseRecorder.fresh, ResponseRecorder.WriteHeader, ResponseRecorder.Write, Header.Set]
  simp only [Bool.false_eq_true, if_false, hA, hB, if_true]
  by_cases hb : bodyAllowedForStatus statusCode = true
  · simp [hb]
  · simp [hb]

/-- The response `sendJSONError` produces on a fresh writer, for a status code in 200..999
other than 204 and 304. -/
theorem respond_sendJSONError (message details : String) (statusCode : Int)
    (hc : 200 ≤ statusCode ∧ statusCode ≤ 999 ∧ statusCode ≠ 204 ∧ statusCode ≠ 304) :
    respond (sendJSONError message details statusCode) =
      { StatusCode := statusCode
        Header := [("Content-Type", ["application/json"])]
        Body := Encode { Error := message, Details := details, Status := statusCode } } := by
  have hb := bodyAllowedForStatus_of_final statusCode ⟨hc.1, hc.2.2.1, hc.2.2.2⟩
  have hs := suppressedHeaders_of_final statusCode ⟨hc.1, hc.2.2.1, hc.2.2.2⟩
  rw [respond, foldl_sendJSONError message details statusCode ⟨hc.1, hc.2.1⟩]
  simp [ResponseRecorder.Result, hb, hs]

/-- The status of the response `sendJSONError` produces, for a status code in 200..999. -/
theorem respond_sendJSONError_status (message details : String) (statusCode : Int)
    (hc : 200 ≤ statusCode ∧ statusCode ≤ 999) :
    (respond (sendJSONError message details statusCode)).StatusCode = statusCode := by
  rw [respond, foldl_sendJSONError message details statusCode hc]
  simp [ResponseRecorder.Result]

/-- With a status code in 200..999 the calls of `sendJSONError` do not panic. -/
theorem panics_sendJSONError (message details : String) (statusCode : Int)
    (hc : 200 ≤ statusCode ∧ statusCode ≤ 999) :
    panics (sendJSONError message details statusCode) = false := by
  rw [panics, foldl_sendJSONError message details statusCode hc]

/-- The response `sendJSONError` produces with status 304: the status line alone. -/
theorem respond_sendJSONError_304 (message details : String) :
    respond (sendJSONError message details 304) =
      { StatusCode := 304, Header := [], Body := [] } := by
  rw [respond, foldl_sendJSONError message details 304 (by decide)]
  rfl

/-- With a status code outside 100..999 the calls of `sendJSONError` panic, and the client
gets no response. -/
theorem respond_sendJSONError_invalid (message details : String) (statusCode : Int)
    (hc : statusCode < 100 ∨ statusCode > 999) :
    panics (sendJSONError message details statusCode) = true ∧
    respond (sendJSONError message details statusCode) = noResponse := by
  simp [panics, respond, sendJSONError, ResponseRecorder.apply, ResponseRecorder.fresh,
    ResponseRecorder.WriteHeader, ResponseRecorder.Result, hc]

/-- Copying chunks to a writer that has not panicked, whose status is still 200 and whose
headers are as they were when (and if) the status line was fixed: the body grows by the chunks,
nothing else changes. -/
theorem foldl_Write_ok (body : List Bytes) (rw : ResponseRecorder)
    (hCode : rw.Code = 200) (hSnap : rw.wroteHeader = true → rw.snapHeader = rw.HeaderMap)
    (hPanic : rw.panicked = false) :
    (body.foldl ResponseRecorder.Write rw).Result =
      { StatusCode := 200, Header := rw.HeaderMap, Body := rw.Body ++ body.flatten } ∧
    (body.foldl ResponseRecorder.Write rw).panicked = false := by
  have hs : suppressedHeaders 200 = [] := by decide
  have hb : bodyAllowedForStatus 200 = true := by decide
  induction body generalizing rw with
  | nil =>
    cases hw : rw.wroteHeader
    · simp [ResponseRecorder.Result, hCode, hw, hPanic, hs]
    · simp [ResponseRecorder.Result, hCode, hw, hSnap hw, hPanic, hs]
  | cons b bs ih =>
    simp only [List.foldl_cons, List.flatten_cons]
    cases hw : rw.wroteHeader
    · have h := ih (rw.Write b)
        (by simp [ResponseRecorder.Write, ResponseRecorder.WriteHeader, hw, hb])
        (by simp [ResponseRecorder.Write, ResponseRecorder.WriteHeader, hw, hb])
        (by simp [ResponseRecorder.Write, ResponseRecorder.WriteHeader, hw, hb, hPanic])
      rw [h.1, h.2]
      simp [ResponseRecorder.Write, ResponseRecorder.WriteHeader, hw, hb]
    · have h := ih (rw.Write b)
        (by simp [ResponseRecorder.Write, ResponseRecorder.WriteHeader, hw, hb, hCode])
        (by simp [ResponseRecorder.Write, ResponseRecorder.WriteHeader, hw, hb, hCode,
          hSnap hw])
        (by simp [ResponseRecorder.Write, ResponseRecorder.WriteHeader, hw, hb, hCode,
          hPanic])
      rw [h.1, h.2]
      simp [ResponseRecorder.Write, ResponseRecorder.WriteHeader, hw, hb, hCode]

/-- The response of the success path. -/
theorem respond_success (contentType : String) (body : List Bytes) :
    respond [ .headerSet "Content-Type" contentType,
              .headerSet "Cache-Control" "public, max-age=3600",
              .copy body ] =
      { StatusCode := 200
        Header := [("Cache-Control", ["public, max-age=3600"]), ("Content-Type", [contentType])]
        Body := body.flatten } := by
  simp only [respond, List.foldl_cons, List.foldl_nil, ResponseRecorder.apply,
    ResponseRecorder.fresh, Bool.false_eq_true, if_false]
  rw [(foldl_Write_ok _ _ rfl (by simp) rfl).1]
  simp [Header.Set]

/-- The success path does not panic. -/
theorem panics_success (contentType : String) (body : List Bytes) :
    panics [ .headerSet "Content-Type" contentType,
             .headerSet "Cache-Control" "public, max-age=3600",
             .copy body ] = false := by
  simp only [panics, List.foldl_cons, List.foldl_nil, ResponseRecorder.apply,
    ResponseRecorder.fresh, Bool.false_eq_true, if_false]
  exact (foldl_Write_ok _ _ rfl (by simp) rfl).2

/-- A string that starts with a non-empty string is not empty. -/
theorem append_ne_empty (a b : String) (h : a ≠ "") : a ++ b ≠ "" := by
  intro hab
  apply h
  have hd : (a ++ b).data = [] := by rw [hab]
  rw [String.data_append, List.append_eq_nil] at hd
  exact String.ext hd.1

/-- Request construction succeeds when the URL parses. -/
theorem NewRequestWithContext_ok (env : Env) (photoId : String)
    (h : env.parseError (apiURL photoId) = none) :
    NewRequestWithContext env { timeout := 20 * Second } "GET" (apiURL photoId) =
      .ok (builtRequest photoId) := by
  simp [NewRequestWithContext, h, builtRequest]

/-- The run of the handler once the upstream has replied. -/
theorem fetchPhoto_of_response (env : Env) (r : Request) (resp : UpstreamResponse)
    (hid : r.Query.Get "id" ≠ "")
    (hparse : env.parseError (apiURL (r.Query.Get "id")) = none)
    (hdo : env.Do (builtRequest (r.Query.Get "id")) = .response resp) :
    (fetchPhoto env r).calls =
      if resp.StatusCode = 204 then
        sendJSONError "Image not found"
          ("The image ID '" ++ r.Query.Get "id" ++ "' was not found in the Tempest system") 404
      else if resp.StatusCode = 200 then
        [ .headerSet "Content-Type" (resp.Header.Get "Content-Type"),
          .headerSet "Cache-Control" "public, max-age=3600",
          .copy resp.Body ]
      else if resp.StatusCode = 403 then
        sendJSONError "Access denied"
          ("You don't have permission to access image '" ++ r.Query.Get "id" ++ "'") 403
      else if resp.StatusCode = 401 then
        sendJSONError "Authentication required"
          "The request requires valid authentication credentials" 401
      else if resp.StatusCode = 500 then
        sendJSONError "Tempest API error"
          "The upstream image service is currently experiencing issues" 500
      else if resp.StatusCode = 503 then
        sendJSONError "Service unavailable"
          "The Tempest API is temporarily unavailable. Please try again later." 503
      else
        sendJSONError "Unexpected error"
          ("Tempest API returned status " ++ formatInt resp.StatusCode) resp.StatusCode := by
  simp only [fetchPhoto, if_neg hid, NewRequestWithContext_ok env _ hparse, hdo, StatusOK,
    StatusForbidden, StatusUnauthorized, StatusInternalServerError, StatusServiceUnavailable,
    StatusNotFound]
  split_ifs <;> rfl

/-- The run of the handler for a missing or empty identifier. -/
theorem fetchPhoto_missing (env : Env) (r : Request) (hid : r.Query.Get "id" = "") :
    fetchPhoto env r =
      { calls := sendJSONError "Image ID required" "Please provide a valid image identifier" 400
        upstream := [] } := by
  simp only [fetchPhoto, if_pos hid, StatusBadRequest]

/-- The run of the handler when the upstream URL does not parse. -/
theorem fetchPhoto_parse_error (env : Env) (r : Request) (err : String)
    (hid : r.Query.Get "id" ≠ "")
    (hparse : env.parseError (apiURL (r.Query.Get "id")) = some err) :
    fetchPhoto env r =
      { calls := sendJSONError "Request creation failed"
          ("Unable to create API request: " ++ err) 500
        upstream := [.newRequest { timeout := 20 * Second } "GET" (apiURL (r.Query.Get "id"))] } := by
  simp only [fetchPhoto, if_neg hid, NewRequestWithContext, hparse, StatusInternalServerError]

/-- The run of the handler when `client.Do` fails. -/
theorem fetchPhoto_failure (env : Env) (r : Request) (err : String) (ctxErr : CtxErr)
    (hid : r.Query.Get "id" ≠ "")
    (hparse : env.parseError (apiURL (r.Query.Get "id")) = none)
    (hdo : env.Do (builtRequest (r.Query.Get "id")) = .failure err ctxErr) :
    fetchPhoto env r =
      { calls :=
          if ctxErr = CtxErr.DeadlineExceeded then
            sendJSONError "Request timeout"
              "The image request took too long to process (>20s). The image may be very large."
              408
          else
            sendJSONError "Connection failed" ("Unable to connect to Tempest API: " ++ err) 500
        upstream :=
          [ .newRequest { timeout := 20 * Second } "GET" (apiURL (r.Query.Get "id")),
            .clientDo (builtRequest (r.Query.Get "id")) ] } := by
  simp only [fetchPhoto, if_neg hid, NewRequestWithContext_ok env _ hparse, hdo,
    StatusRequestTimeout, StatusInternalServerError]
  split_ifs <;> rfl

/-- The calls towards the upstream once the request is built: one `NewRequestWithContext`, one
`client.Do`. -/
theorem fetchPhoto_upstream (env : Env) (r : Request)
    (hid : r.Query.Get "id" ≠ "")
    (hparse : env.parseError (apiURL (r.Query.Get "id")) = none) :
    (fetchPhoto env r).upstream =
      [ .newRequest { timeout := 20 * Second } "GET" (apiURL (r.Query.Get "id")),
        .clientDo (builtRequest (r.Query.Get "id")) ] := by
  simp only [fetchPhoto, if_neg hid, NewRequestWithContext_ok env _ hparse]
  cases env.Do (builtRequest (r.Query.Get "id")) with
  | failure err ctxErr => simp only []; split_ifs <;> rfl
  | response resp => simp only []; split_ifs <;> rfl

/-- The members of an encoded `ErrorResponse`, looked up by name. -/
theorem marshal_lookup (e : ErrorResponse) :
    e.marshal.lookup "error" = some (.str e.Error) ∧
    e.marshal.lookup "status" = some (.num e.Status) ∧
    e.marshal.lookup "details" = if e.Details = "" then none else some (.str e.Details) := by
  unfold ErrorResponse.marshal
  by_cases h : e.Details = ""
  · simp [h, List.lookup]
  · simp [h, List.lookup]

/-- The bytes written for an `ErrorResponse` with details: an object of three members. -/
theorem Encode_with_details (message details : String) (statusCode : Int)
    (hd : details ≠ "") :
    Encode { Error := message, Details := details, Status := statusCode } =
      utf8 (renderObject
        [ ("error", .str message), ("details", .str details), ("status", .num statusCode) ]
        ++ "\n") := by
  simp only [Encode, ErrorResponse.marshal, if_neg hd]
  rfl

/-- The bytes written for an `ErrorResponse` without details: an object of two members. -/
theorem Encode_without_details (message : String) (statusCode : Int) :
    Encode { Error := message, Details := "", Status := statusCode } =
      utf8 (renderObject [ ("error", .str message), ("status", .num statusCode) ] ++ "\n") := by
  rfl

/-- The response `sendJSONError` produces when it is given details and a status code in
200..999 other than 204 and 304: the status code, the JSON content type, and an object of three
members. -/
theorem respond_sendJSONError_details (message details : String) (statusCode : Int)
    (hd : details ≠ "")
    (hc : 200 ≤ statusCode ∧ statusCode ≤ 999 ∧ statusCode ≠ 204 ∧ statusCode ≠ 304) :
    (respond (sendJSONError message details statusCode)).StatusCode = statusCode ∧
    (respond (sendJSONError message details statusCode)).Header.Get "Content-Type" =
      "application/json" ∧
    (respond (sendJSONError message details statusCode)).Body = utf8 (renderObject
      [ ("error", .str message), ("details", .str details), ("status", .num statusCode) ]
      ++ "\n") := by
  rw [respond_sendJSONError message details statusCode hc]
  exact ⟨rfl, rfl, Encode_with_details message details statusCode hd⟩

/-- A run with a fixed status for its kind is of the failing form. -/
theorem FailureForm.of_fixed (env : Env) (r : Request) (k : ErrorKind)
    (message details : String) (statusCode : Int)
    (hk : errorKind env r = some k) (hr : upstreamReplied200 env r = false)
    (hcalls : (fetchPhoto env r).calls = sendJSONError message details statusCode)
    (hne : statusCode ≠ 200) (hs : kindStatus k = some statusCode) :
    FailureForm env r := by
  refine ⟨k, message, details, statusCode, hk, hr, hcalls, hne, ?_, ?_⟩
  · intro s h
    rw [hs] at h
    exact Option.some.inj h
  · intro h
    rw [hs] at h
    cases h

/-- Every run of the handler is of one of the two forms. -/
theorem fetchPhoto_forms (env : Env) (r : Request) :
    FailureForm env r ∨ SuccessForm env r := by
  by_cases hid : r.Query.Get "id" = ""
  · exact Or.inl (FailureForm.of_fixed env r .missing_identifier _ _ 400
      (by simp [errorKind, hid]) (by simp [upstreamReplied200, hid])
      (congrArg Run.calls (fetchPhoto_missing env r hid)) (by decide) rfl)
  · cases hp : env.parseError (apiURL (r.Query.Get "id")) with
    | some err =>
      exact Or.inl (FailureForm.of_fixed env r .request_construction_failure _ _ 500
        (by simp [errorKind, hid, NewRequestWithContext, hp])
        (by simp [upstreamReplied200, hid, NewRequestWithContext, hp])
        (congrArg Run.calls (fetchPhoto_parse_error env r err hid hp)) (by decide) rfl)
    | none =>
      have hreq := NewRequestWithContext_ok env _ hp
      cases hd : env.Do (builtRequest (r.Query.Get "id")) with
      | failure err ctxErr =>
        have hrun := congrArg Run.calls (fetchPhoto_failure env r err ctxErr hid hp hd)
        by_cases hc : ctxErr = CtxErr.DeadlineExceeded
        · exact Or.inl (FailureForm.of_fixed env r .timeout _ _ 408
            (by simp [errorKind, hid, hreq, hd, hc])
            (by simp [upstreamReplied200, hid, hreq, hd])
            (hrun.trans (if_pos hc)) (by decide) rfl)
        · exact Or.inl (FailureForm.of_fixed env r .connection_failure _ _ 500
            (by simp [errorKind, hid, hreq, hd, hc])
            (by simp [upstreamReplied200, hid, hreq, hd])
            (hrun.trans (if_neg hc)) (by decide) rfl)
      | response resp =>
        have hcalls := fetchPhoto_of_response env r resp hid hp hd
        by_cases h204 : resp.StatusCode = 204
        · exact Or.inl (FailureForm.of_fixed env r .not_found _ _ 404
            (by simp [errorKind, hid, hreq, hd, h204])
            (by simp [upstreamReplied200, hid, hreq, hd, h204])
            (hcalls.trans (if_pos h204)) (by decide) rfl)
        rw [if_neg h204] at hcalls
        by_cases h200 : resp.StatusCode = 200
        · exact Or.inr ⟨resp, by simp [errorKind, hid, hreq, hd, h200],
            by simp [upstreamReplied200, hid, hreq, hd, h200], hid, hd, h200,
            hcalls.trans (if_pos h200)⟩
        rw [if_neg h200] at hcalls
        by_cases h403 : resp.StatusCode = 403
        · exact Or.inl (FailureForm.of_fixed env r .access_denied _ _ 403
            (by simp [errorKind, hid, hreq, hd, h403])
            (by simp [upstreamReplied200, hid, hreq, hd, h403])
            (hcalls.trans (if_pos h403)) (by decide) rfl)
        rw [if_neg h403] at hcalls
        by_cases h401 : resp.StatusCode = 401
        · exact Or.inl (FailureForm.of_fixed env r .authentication_required _ _ 401
            (by simp [errorKind, hid, hreq, hd, h401])
            (by simp [upstreamReplied200, hid, hreq, hd, h401])
            (hcalls.trans (if_pos h401)) (by decide) rfl)
        rw [if_neg h401] at hcalls
        by_cases h500 : resp.StatusCode = 500
        · exact Or.inl (FailureForm.of_fixed env r .upstream_internal_error _ _ 500
            (by simp [errorKind, hid, hreq, hd, h500])
            (by simp [upstreamReplied200, hid, hreq, hd, h500])
            (hcalls.trans (if_pos h500)) (by decide) rfl)
        rw [if_neg h500] at hcalls
        by_cases h503 : resp.StatusCode = 503
        · exact Or.inl (FailureForm.of_fixed env r .upstream_unavailable _ _ 503
            (by simp [errorKind, hid, hreq, hd, h503])
            (by simp [upstreamReplied200, hid, hreq, hd, h503])
            (hcalls.trans (if_pos h503)) (by decide) rfl)
        rw [if_neg h503] at hcalls
        refine Or.inl ⟨.unexpected_upstream_status, _, _, resp.StatusCode, ?_, ?_, hcalls, h200,
          ?_, ?_⟩
        · simp [errorKind, hid, hreq, hd, h204, h200, h403, h401, h500, h503]
        · simp [upstreamReplied200, hid, hreq, hd, h200]
        · intro s hs; simp [kindStatus] at hs
        · intro _; exact ⟨resp, hd, rfl⟩

/-- The success test, spelled out: the identifier is non-empty, the request is built, and the
upstream answers it with status 200. -/
theorem upstreamReplied200_iff (env : Env) (r : Request) :
    upstreamReplied200 env r = true ↔
      (r.Query.Get "id" ≠ "" ∧ env.parseError (apiURL (r.Query.Get "id")) = none ∧
        ∃ resp, env.Do (builtRequest (r.Query.Get "id")) = .response resp ∧
          resp.StatusCode = 200) := by
  by_cases hid : r.Query.Get "id" = ""
  · simp [upstreamReplied200, hid]
  · cases hp : env.parseError (apiURL (r.Query.Get "id")) with
    | some err => simp [upstreamReplied200, hid, NewRequestWithContext, hp]
    | none =>
      have hreq := NewRequestWithContext_ok env _ hp
      cases hd : env.Do (builtRequest (r.Query.Get "id")) with
      | failure err ctxErr => simp [upstreamReplied200, hid, hreq, hd]
      | response resp => simp [upstreamReplied200, hid, hreq, hd]

/-- The calls of `sendJSONError` are never those of the success path. -/
theorem sendJSONError_ne_success (message details : String) (statusCode : Int)
    (contentType : String) (body : List Bytes) :
    sendJSONError message details statusCode ≠
      [ .headerSet "Content-Type" contentType,
        .headerSet "Cache-Control" "public, max-age=3600",
        .copy body ] := by
  simp [sendJSONError]

/-- The statuses of the table lie in 200..999 and are neither 204 nor 304. -/
theorem kindStatus_final (k : ErrorKind) (s : Int) (h : kindStatus k = some s) :
    200 ≤ s ∧ s ≤ 999 ∧ s ≠ 204 ∧ s ≠ 304 := by
  cases k <;> simp [kindStatus] at h <;> subst h <;> decide

/-- The client status of a request that falls into an error kind: the status of the kind,
and, for an unexpected status in 200..999, the upstream's own code. -/
theorem status_of_errorKind (env : Env) (r : Request) (k : ErrorKind)
    (hk : errorKind env r = some k) :
    (∀ s, kindStatus k = some s → (fetchPhotoResponse env r).StatusCode = s) ∧
    (kindStatus k = none → ∃ resp,
      env.Do (builtRequest (r.Query.Get "id")) = .response resp ∧
      (200 ≤ resp.StatusCode ∧ resp.StatusCode ≤ 999 →
        (fetchPhotoResponse env r).StatusCode = resp.StatusCode)) := by
  rcases fetchPhoto_forms env r with ⟨k', m, d, c, hk', _, hcalls, _, hfix, hpass⟩ | ⟨_, hnone, _⟩
  · have hkk : k' = k := Option.some.inj (hk'.symm.trans hk)
    subst hkk
    constructor
    · intro s hs
      have hcs := hfix s hs
      have hf := kindStatus_final k' s hs
      rw [fetchPhotoResponse, hcalls, hcs]
      exact respond_sendJSONError_status m d s ⟨hf.1, hf.2.1⟩
    · intro hn
      obtain ⟨resp, hd, hc⟩ := hpass hn
      refine ⟨resp, hd, fun hr => ?_⟩
      rw [fetchPhotoResponse, hcalls, hc]
      exact respond_sendJSONError_status m d resp.StatusCode hr
  · rw [hnone] at hk
    cases hk

/-- The status code of a failing run lies in 200..999 and is not 204, once the status of the
upstream's reply lies in 200..999. -/
theorem failure_code_final (env : Env) (r : Request) (k : ErrorKind) (c : Int)
    (hfinal : ∀ resp, env.Do (builtRequest (r.Query.Get "id")) = .response resp →
      200 ≤ resp.StatusCode ∧ resp.StatusCode ≤ 999)
    (hk : errorKind env r = some k)
    (hfix : ∀ s, kindStatus k = some s → c = s)
    (hpass : kindStatus k = none → ∃ resp,
      env.Do (builtRequest (r.Query.Get "id")) = .response resp ∧ c = resp.StatusCode) :
    200 ≤ c ∧ c ≤ 999 ∧ c ≠ 204 := by
  cases hs : kindStatus k with
  | some s =>
    rw [hfix s hs]
    have h := kindStatus_final k s hs
    exact ⟨h.1, h.2.1, h.2.2.1⟩
  | none =>
    obtain ⟨resp, hd, hc⟩ := hpass hs
    obtain ⟨h1, h2⟩ := hfinal resp hd
    have h204 : resp.StatusCode ≠ 204 := by
      intro h
      have hnf : errorKind env r = some .not_found ∨ errorKind env r = some .missing_identifier
          ∨ errorKind env r = some .request_construction_failure := by
        by_cases hid : r.Query.Get "id" = ""
        · exact Or.inr (Or.inl (by simp [errorKind, hid]))
        · cases hp : env.parseError (apiURL (r.Query.Get "id")) with
          | some err =>
            exact Or.inr (Or.inr (by simp [errorKind, hid, NewRequestWithContext, hp]))
          | none =>
            have hreq := NewRequestWithContext_ok env _ hp
            exact Or.inl (by simp [errorKind, hid, hreq, hd, h])
      rcases hnf with h' | h' | h' <;>
      · rw [hk] at h'
        have hk' := Option.some.inj h'
        rw [hk'] at hs
        simp [kindStatus] at hs
    rw [hc]
    exact ⟨h1, h2, h204⟩

/-- A failing run passes the status 304 to `sendJSONError` exactly when the identifier is
non-empty, the request is built and the upstream replied with status 304. -/
theorem failure_code_304_iff (env : Env) (r : Request) (k : ErrorKind) (m d : String) (c : Int)
    (hk : errorKind env r = some k)
    (hcalls : (fetchPhoto env r).calls = sendJSONError m d c)
    (hfix : ∀ s, kindStatus k = some s → c = s)
    (hpass : kindStatus k = none → ∃ resp,
      env.Do (builtRequest (r.Query.Get "id")) = .response resp ∧ c = resp.StatusCode) :
    c = 304 ↔
      (r.Query.Get "id" ≠ "" ∧ env.parseError (apiURL (r.Query.Get "id")) = none ∧
        ∃ resp, env.Do (builtRequest (r.Query.Get "id")) = .response resp ∧
          resp.StatusCode = 304) := by
  constructor
  · intro h304
    cases hs : kindStatus k with
    | some s =>
      have h := kindStatus_final k s hs
      rw [← hfix s hs] at h
      exact absurd h304 h.2.2.2
    | none =>
      obtain ⟨resp, hd, hc⟩ := hpass hs
      have hku : k = .unexpected_upstream_status := by
        cases k <;> simp [kindStatus] at hs
        rfl
      rw [hku] at hk
      have hid : r.Query.Get "id" ≠ "" := by
        intro hid
        simp [errorKind, hid] at hk
      have hp : env.parseError (apiURL (r.Query.Get "id")) = none := by
        cases hp : env.parseError (apiURL (r.Query.Get "id")) with
        | none => rfl
        | some err => simp [errorKind, hid, NewRequestWithContext, hp] at hk
      exact ⟨hid, hp, resp, hd, by rw [← hc, h304]⟩
  · rintro ⟨hid, hp, resp, hd, h304⟩
    have h := fetchPhoto_of_response env r resp hid hp hd
    rw [h304, if_neg (by decide), if_neg (by decide), if_neg (by decide), if_neg (by decide),
      if_neg (by decide), if_neg (by decide), hcalls] at h
    simp only [sendJSONError, List.cons.injEq, Call.writeHeader.injEq] at h
    exact h.2.1

/-- The `error` member a run encodes is the message of the kind the request falls into, and
there is none when it falls into no kind. -/
theorem errorField_eq (env : Env) (r : Request) :
    (fetchPhoto env r).errorField = (errorKind env r).map kindMessage := by
  by_cases hid : r.Query.Get "id" = ""
  · rw [fetchPhoto_missing env r hid]
    simp [errorKind, hid, Run.errorField, sendJSONError, kindMessage]
  · cases hp : env.parseError (apiURL (r.Query.Get "id")) with
    | some err =>
      rw [fetchPhoto_parse_error env r err hid hp]
      simp [errorKind, hid, NewRequestWithContext, hp, Run.errorField, sendJSONError,
        kindMessage]
    | none =>
      have hreq := NewRequestWithContext_ok env _ hp
      cases hd : env.Do (builtRequest (r.Query.Get "id")) with
      | failure err ctxErr =>
        rw [fetchPhoto_failure env r err ctxErr hid hp hd]
        by_cases hc : ctxErr = CtxErr.DeadlineExceeded
        · simp [errorKind, hid, hreq, hd, hc, Run.errorField, sendJSONError, kindMessage]
        · simp [errorKind, hid, hreq, hd, hc, Run.errorField, sendJSONError, kindMessage]
      | response resp =>
        have hcalls := fetchPhoto_of_response env r resp hid hp hd
        simp only [Run.errorField, hcalls]
        by_cases h204 : resp.StatusCode = 204
        · simp [errorKind, hid, hreq, hd, h204, sendJSONError, kindMessage]
        by_cases h200 : resp.StatusCode = 200
        · simp [errorKind, hid, hreq, hd, h200]
        by_cases h403 : resp.StatusCode = 403
        · simp [errorKind, hid, hreq, hd, h403, sendJSONError, kindMessage]
        by_cases h401 : resp.StatusCode = 401
        · simp [errorKind, hid, hreq, hd, h401, sendJSONError, kindMessage]
        by_cases h500 : resp.StatusCode = 500
        · simp [errorKind, hid, hreq, hd, h500, sendJSONError, kindMessage]
        by_cases h503 : resp.StatusCode = 503
        · simp [errorKind, hid, hreq, hd, h503, sendJSONError, kindMessage]
        · simp [errorKind, hid, hreq, hd, h204, h200, h403, h401, h500, h503, sendJSONError,
            kindMessage]

/-- The ten messages are pairwise distinct. -/
theorem kindMessage_injective (k1 k2 : ErrorKind) (h : kindMessage k1 = kindMessage k2) :
    k1 = k2 := by
  cases k1 <;> cases k2 <;> first | rfl | exact absurd h (by decide)

/-- A request falls into the kind `missing_identifier` exactly when its identifier is empty. -/
theorem errorKind_missing_iff (env : Env) (r : Request) :
    errorKind env r = some .missing_identifier ↔ r.Query.Get "id" = "" := by
  constructor
  · intro h
    by_contra hid
    cases hp : env.parseError (apiURL (r.Query.Get "id")) with
    | some err => simp [errorKind, hid, NewRequestWithContext, hp] at h
    | none =>
      have hreq := NewRequestWithContext_ok env _ hp
      cases hd : env.Do (builtRequest (r.Query.Get "id")) with
      | failure err ctxErr =>
        by_cases hc : ctxErr = CtxErr.DeadlineExceeded
        · simp [errorKind, hid, hreq, hd, hc] at h
        · simp [errorKind, hid, hreq, hd, hc] at h
      | response resp =>
        simp only [errorKind, if_neg hid, hreq, hd] at h
        split_ifs at h <;> simp at h
  · intro hid
    simp [errorKind, hid]

/-- The identifier can be read back from the upstream URL: two identifiers with one URL are
equal. -/
theorem apiURL_injective (a b : String) (h : apiURL a = apiURL b) : a = b := by
  have hd : (apiURL a).data = (apiURL b).data := by rw [h]
  simp only [apiURL, String.data_append] at hd
  have h1 := List.append_cancel_right hd
  exact String.ext (List.append_cancel_left h1)

/-- The run of the handler depends only on the identifier, on whether the upstream URL of that
identifier parses, and on the outcome of `client.Do` for the request of that identifier. -/
theorem fetchPhoto_congr (env1 env2 : Env) (r1 r2 : Request)
    (hid : r1.Query.Get "id" = r2.Query.Get "id")
    (hparse : env1.parseError (apiURL (r1.Query.Get "id")) =
      env2.parseError (apiURL (r1.Query.Get "id")))
    (hdo : env1.Do (builtRequest (r1.Query.Get "id")) =
      env2.Do (builtRequest (r1.Query.Get "id"))) :
    fetchPhoto env1 r1 = fetchPhoto env2 r2 := by
  simp only [builtRequest] at hdo
  simp only [fetchPhoto, NewRequestWithContext, ← hid, hparse]
  split_ifs
  · rfl
  · cases env2.parseError (apiURL (r1.Query.Get "id")) with
    | some err => rfl
    | none => simp only [hdo]

/-! ## The claims -/

/-- C1: a request whose `id` parameter is missing or empty gets status 400 and the JSON error
object with `error` = "Image ID required" and `status` = 400, and the handler makes no call
towards the upstream: no request is built and none is sent. -/
theorem C1_missing_id_rejected (env : Env) (r : Request)
    (h : r.Query.lookup "id" = none ∨ r.Query.Get "id" = "") :
    (fetchPhotoResponse env r).StatusCode = 400 ∧
    (fetchPhotoResponse env r).Body = utf8 (renderObject
      [ ("error", .str "Image ID required"),
        ("details", .str "Please provide a valid image identifier"),
        ("status", .num 400) ] ++ "\n") ∧
    (fetchPhoto env r).upstream = [] := by
  have hget : r.Query.Get "id" = "" := by
    rcases h with h | h
    · simp [Header.Get, h]
    · exact h
  have hrun : fetchPhoto env r =
      { calls := sendJSONError "Image ID required" "Please provide a valid image identifier" 400
        upstream := [] } := by
    simp only [fetchPhoto, if_pos hget, StatusBadRequest]
  rw [fetchPhotoResponse, hrun, respond_sendJSONError _ _ 400 (by decide)]
  exact ⟨rfl, rfl, rfl⟩

/-- Witness of C1: a request without any query parameter. -/
theorem C1_missing_id_rejected_witness :
    (fetchPhotoResponse (upstreamReplying 200) { Query := [], RemoteAddr := "" }).StatusCode = 400 ∧
    (fetchPhotoResponse (upstreamReplying 200) { Query := [], RemoteAddr := "" }).Body =
      utf8 (renderObject
        [ ("error", .str "Image ID required"),
          ("details", .str "Please provide a valid image identifier"),
          ("status", .num 400) ] ++ "\n") ∧
    (fetchPhoto (upstreamReplying 200) { Query := [], RemoteAddr := "" }).upstream = [] :=
  C1_missing_id_rejected (upstreamReplying 200) { Query := [], RemoteAddr := "" } (Or.inl rfl)

/-- C2, at the identifier `x?y=1`: the handler puts the identifier into the upstream URL as it
is, not escaped; the request it sends has the query `y=1/preview/?exifrotate=1&...` instead of
the fixed one, and its path ends at `/image/x`. -/
theorem C2_identifier_not_escaped :
    (fetchPhoto (upstreamReplying 200) (requestFor "x?y=1")).upstream =
      [ .newRequest { timeout := 20000000000 } "GET"
          "https://us-central1-htempest-preproduction-prod.cloudfunctions.net/ImageApiProxy/image/x?y=1/preview/?exifrotate=1&MaxSize=9999&ProofWatermark=FALSE&source=G&WithCrop=TRUE",
        .clientDo
          { ctx := { timeout := 20000000000 }, Method := "GET",
            URL := "https://us-central1-htempest-preproduction-prod.cloudfunctions.net/ImageApiProxy/image/x?y=1/preview/?exifrotate=1&MaxSize=9999&ProofWatermark=FALSE&source=G&WithCrop=TRUE" } ] ∧
    rawQuery (apiURL "x?y=1") =
      "y=1/preview/?exifrotate=1&MaxSize=9999&ProofWatermark=FALSE&source=G&WithCrop=TRUE" ∧
    rawQuery (apiURL "x?y=1") ≠ apiQuery ∧
    beforeQuery (apiURL "x?y=1") =
      "https://us-central1-htempest-preproduction-prod.cloudfunctions.net/ImageApiProxy/image/x" := by
  refine ⟨by rfl, by rfl, by decide, by rfl⟩

/-- C3: for a non-empty identifier and an upstream response with status 200, the client gets
status 200, a body equal to the bytes of the upstream body, the upstream's `Content-Type` value
under `Content-Type`, and `Cache-Control: public, max-age=3600`. -/
theorem C3_upstream_200_streamed (env : Env) (r : Request) (resp : UpstreamResponse)
    (hid : r.Query.Get "id" ≠ "")
    (hparse : env.parseError (apiURL (r.Query.Get "id")) = none)
    (hdo : env.Do (builtRequest (r.Query.Get "id")) = .response resp)
    (hcode : resp.StatusCode = 200) :
    (fetchPhotoResponse env r).StatusCode = 200 ∧
    (fetchPhotoResponse env r).Body = resp.Body.flatten ∧
    (fetchPhotoResponse env r).Header.Get "Content-Type" = resp.Header.Get "Content-Type" ∧
    (fetchPhotoResponse env r).Header.Get "Cache-Control" = "public, max-age=3600" := by
  have hcalls := fetchPhoto_of_response env r resp hid hparse hdo
  rw [hcode, if_neg (by decide), if_pos rfl] at hcalls
  rw [fetchPhotoResponse, hcalls, respond_success]
  refine ⟨rfl, rfl, ?_, ?_⟩
  · simp [Header.Get, List.lookup]
  · simp [Header.Get, List.lookup]

/-- Witness of C3: identifier `a`, an upstream that answers 200 with a JPEG. -/
theorem C3_upstream_200_streamed_witness :
    (fetchPhotoResponse (upstreamReplying 200) (requestFor "a")).StatusCode = 200 ∧
    (fetchPhotoResponse (upstreamReplying 200) (requestFor "a")).Body =
      List.flatten [[255, 216], [255]] ∧
    (fetchPhotoResponse (upstreamReplying 200) (requestFor "a")).Header.Get "Content-Type" =
      Header.Get [("Content-Type", ["image/jpeg"])] "Content-Type" ∧
    (fetchPhotoResponse (upstreamReplying 200) (requestFor "a")).Header.Get "Cache-Control" =
      "public, max-age=3600" :=
  C3_upstream_200_streamed (upstreamReplying 200) (requestFor "a")
    { StatusCode := 200, Header := [("Content-Type", ["image/jpeg"])],
      Body := [[255, 216], [255]] }
    (by decide) rfl rfl rfl

/-- C4: for a non-empty identifier, an upstream response with status 204 gives the client
status 404 and a JSON error object whose `error` member is "Image not found", whatever the
identifier, and whose `status` member is 404. -/
theorem C4_upstream_204_not_found (env : Env) (r : Request) (resp : UpstreamResponse)
    (hid : r.Query.Get "id" ≠ "")
    (hparse : env.parseError (apiURL (r.Query.Get "id")) = none)
    (hdo : env.Do (builtRequest (r.Query.Get "id")) = .response resp)
    (hcode : resp.StatusCode = 204) :
    (fetchPhotoResponse env r).StatusCode = 404 ∧
    (fetchPhotoResponse env r).Header.Get "Content-Type" = "application/json" ∧
    (fetchPhotoResponse env r).Body = utf8 (renderObject
      [ ("error", .str "Image not found"),
        ("details", .str ("The image ID '" ++ r.Query.Get "id" ++
          "' was not found in the Tempest system")),
        ("status", .num 404) ] ++ "\n") := by
  have hcalls := fetchPhoto_of_response env r resp hid hparse hdo
  rw [hcode, if_pos rfl] at hcalls
  rw [fetchPhotoResponse, hcalls]
  have hne : ("The image ID '" ++ r.Query.Get "id" ++ "' was not found in the Tempest system")
      ≠ "" := by
    rw [String.append_assoc]
    exact append_ne_empty _ _ (by decide)
  exact respond_sendJSONError_details "Image not found" _ 404 hne (by decide)

/-- Witness of C4: identifier `a`, an upstream that answers 204. -/
theorem C4_upstream_204_not_found_witness :
    (fetchPhotoResponse (upstreamReplying 204) (requestFor "a")).StatusCode = 404 ∧
    (fetchPhotoResponse (upstreamReplying 204) (requestFor "a")).Header.Get "Content-Type" =
      "application/json" ∧
    (fetchPhotoResponse (upstreamReplying 204) (requestFor "a")).Body = utf8 (renderObject
      [ ("error", .str "Image not found"),
        ("details", .str ("The image ID '" ++ (requestFor "a").Query.Get "id" ++
          "' was not found in the Tempest system")),
        ("status", .num 404) ] ++ "\n") :=
  C4_upstream_204_not_found (upstreamReplying 204) (requestFor "a")
    { StatusCode := 204, Header := [("Content-Type", ["image/jpeg"])],
      Body := [[255, 216], [255]] }
    (by decide) rfl rfl rfl

/-- C5: for a non-empty identifier and an upstream status of 403, 401, 500 or 503, the client
status is that same status, and the body is a JSON object with an `error` string, a `details`
string and a numeric `status`: the error is "Access denied" for 403, "Authentication required"
for 401, "Tempest API error" for 500 and "Service unavailable" for 503. -/
theorem C5_mapped_upstream_status (env : Env) (r : Request) (resp : UpstreamResponse)
    (hid : r.Query.Get "id" ≠ "")
    (hparse : env.parseError (apiURL (r.Query.Get "id")) = none)
    (hdo : env.Do (builtRequest (r.Query.Get "id")) = .response resp)
    (hcode : resp.StatusCode = 403 ∨ resp.StatusCode = 401 ∨ resp.StatusCode = 500 ∨
      resp.StatusCode = 503) :
    (fetchPhotoResponse env r).StatusCode = resp.StatusCode ∧
    (fetchPhotoResponse env r).Header.Get "Content-Type" = "application/json" ∧
    ∃ error details : String, details ≠ "" ∧
      (fetchPhotoResponse env r).Body = utf8 (renderObject
        [ ("error", .str error), ("details", .str details),
          ("status", .num resp.StatusCode) ] ++ "\n") ∧
      (resp.StatusCode = 403 → error = "Access denied") ∧
      (resp.StatusCode = 401 → error = "Authentication required") ∧
      (resp.StatusCode = 500 → error = "Tempest API error") ∧
      (resp.StatusCode = 503 → error = "Service unavailable") := by
  have hcalls := fetchPhoto_of_response env r resp hid hparse hdo
  rcases hcode with h | h | h | h
  · rw [h, if_neg (by decide), if_neg (by decide), if_pos rfl] at hcalls
    rw [fetchPhotoResponse, hcalls, h]
    have hne : ("You don't have permission to access image '" ++ r.Query.Get "id" ++ "'")
        ≠ "" := by
      rw [String.append_assoc]
      exact append_ne_empty _ _ (by decide)
    obtain ⟨h1, h2, h3⟩ := respond_sendJSONError_details "Access denied"
      ("You don't have permission to access image '" ++ r.Query.Get "id" ++ "'") 403 hne
      (by decide)
    refine ⟨h1, h2, "Access denied", _, hne, h3, fun _ => rfl, ?_, ?_, ?_⟩ <;>
      exact fun h' => absurd h' (by decide)
  · rw [h, if_neg (by decide), if_neg (by decide), if_neg (by decide), if_pos rfl] at hcalls
    rw [fetchPhotoResponse, hcalls, h]
    have hne : "The request requires valid authentication credentials" ≠ "" := by decide
    obtain ⟨h1, h2, h3⟩ := respond_sendJSONError_details "Authentication required"
      "The request requires valid authentication credentials" 401 hne (by decide)
    refine ⟨h1, h2, "Authentication required", _, hne, h3, ?_, fun _ => rfl, ?_, ?_⟩ <;>
      exact fun h' => absurd h' (by decide)
  · rw [h, if_neg (by decide), if_neg (by decide), if_neg (by decide), if_neg (by decide),
      if_pos rfl] at hcalls
    rw [fetchPhotoResponse, hcalls, h]
    have hne : "The upstream image service is currently experiencing issues" ≠ "" := by decide
    obtain ⟨h1, h2, h3⟩ := respond_sendJSONError_details "Tempest API error"
      "The upstream image service is currently experiencing issues" 500 hne (by decide)
    refine ⟨h1, h2, "Tempest API error", _, hne, h3, ?_, ?_, fun _ => rfl, ?_⟩ <;>
      exact fun h' => absurd h' (by decide)
  · rw [h, if_neg (by decide), if_neg (by decide), if_neg (by decide), if_neg (by decide),
      if_neg (by decide), if_pos rfl] at hcalls
    rw [fetchPhotoResponse, hcalls, h]
    have hne : "The Tempest API is temporarily unavailable. Please try again later." ≠ "" := by
      decide
    obtain ⟨h1, h2, h3⟩ := respond_sendJSONError_details "Service unavailable"
      "The Tempest API is temporarily unavailable. Please try again later." 503 hne
      (by decide)
    refine ⟨h1, h2, "Service unavailable", _, hne, h3, ?_, ?_, ?_, fun _ => rfl⟩ <;>
      exact fun h' => absurd h' (by decide)

/-- Witness of C5: identifier `a`, an upstream that answers 503. -/
theorem C5_mapped_upstream_status_witness :
    (fetchPhotoResponse (upstreamReplying 503) (requestFor "a")).StatusCode = 503 ∧
    (fetchPhotoResponse (upstreamReplying 503) (requestFor "a")).Header.Get "Content-Type" =
      "application/json" ∧
    ∃ error details : String, details ≠ "" ∧
      (fetchPhotoResponse (upstreamReplying 503) (requestFor "a")).Body = utf8 (renderObject
        [ ("error", .str error), ("details", .str details), ("status", .num 503) ] ++ "\n") ∧
      ((503 : Int) = 403 → error = "Access denied") ∧
      ((503 : Int) = 401 → error = "Authentication required") ∧
      ((503 : Int) = 500 → error = "Tempest API error") ∧
      ((503 : Int) = 503 → error = "Service unavailable") :=
  C5_mapped_upstream_status (upstreamReplying 503) (requestFor "a")
    { StatusCode := 503, Header := [("Content-Type", ["image/jpeg"])],
      Body := [[255, 216], [255]] }
    (by decide) rfl rfl (Or.inr (Or.inr (Or.inr rfl)))

/-- C6 as stated fails at the upstream codes 304 and 99, both outside the mapped set. With
304 the handler calls `sendJSONError` with 304 and the client gets the status line alone: no
body and no `Content-Type`. With 99 `WriteHeader` panics and the client gets no response, so
the client status is not 99. -/
theorem C6_status_304_and_99_no_json_error :
    (fetchPhoto (upstreamReplying 304) (requestFor "a")).calls =
      sendJSONError "Unexpected error" "Tempest API returned status 304" 304 ∧
    fetchPhotoResponse (upstreamReplying 304) (requestFor "a") =
      { StatusCode := 304, Header := [], Body := [] } ∧
    (fetchPhoto (upstreamReplying 99) (requestFor "a")).calls =
      sendJSONError "Unexpected error" "Tempest API returned status 99" 99 ∧
    fetchPhotoPanics (upstreamReplying 99) (requestFor "a") = true ∧
    fetchPhotoResponse (upstreamReplying 99) (requestFor "a") = noResponse ∧
    (fetchPhotoResponse (upstreamReplying 99) (requestFor "a")).StatusCode ≠ 99 := by
  refine ⟨by rfl, by rfl, by rfl, by rfl, by rfl, by decide⟩

/-- C6, amended: for a non-empty identifier and an upstream status in 200..999 other than 200,
204, 401, 403, 500 and 503, the handler calls `sendJSONError` with that same code, does not
panic, and the client status is that code. Unless the code is 304, the body is a JSON error
object whose `status` member is that code and whose `details` member ends with the decimal text
of the code; with 304 the client gets the status line alone. -/
theorem C6_unmapped_status_passed_through (env : Env) (r : Request) (resp : UpstreamResponse)
    (hid : r.Query.Get "id" ≠ "")
    (hparse : env.parseError (apiURL (r.Query.Get "id")) = none)
    (hdo : env.Do (builtRequest (r.Query.Get "id")) = .response resp)
    (hcode : resp.StatusCode ≠ 200 ∧ resp.StatusCode ≠ 204 ∧ resp.StatusCode ≠ 401 ∧
      resp.StatusCode ≠ 403 ∧ resp.StatusCode ≠ 500 ∧ resp.StatusCode ≠ 503)
    (hrange : 200 ≤ resp.StatusCode ∧ resp.StatusCode ≤ 999) :
    (fetchPhoto env r).calls = sendJSONError "Unexpected error"
      ("Tempest API returned status " ++ formatInt resp.StatusCode) resp.StatusCode ∧
    fetchPhotoPanics env r = false ∧
    (fetchPhotoResponse env r).StatusCode = resp.StatusCode ∧
    (resp.StatusCode ≠ 304 →
      (fetchPhotoResponse env r).Header.Get "Content-Type" = "application/json" ∧
      (fetchPhotoResponse env r).Body = utf8 (renderObject
        [ ("error", .str "Unexpected error"),
          ("details", .str ("Tempest API returned status " ++ formatInt resp.StatusCode)),
          ("status", .num resp.StatusCode) ] ++ "\n")) ∧
    (resp.StatusCode = 304 →
      fetchPhotoResponse env r = { StatusCode := 304, Header := [], Body := [] }) := by
  obtain ⟨h200, h204, h401, h403, h500, h503⟩ := hcode
  have hcalls := fetchPhoto_of_response env r resp hid hparse hdo
  rw [if_neg h204, if_neg h200, if_neg h403, if_neg h401, if_neg h500, if_neg h503] at hcalls
  rw [fetchPhotoPanics, fetchPhotoResponse, hcalls]
  have hne : "Tempest API returned status " ≠ "" := by decide
  refine ⟨rfl, panics_sendJSONError _ _ _ hrange, respond_sendJSONError_status _ _ _ hrange,
    ?_, ?_⟩
  · intro h304
    exact (respond_sendJSONError_details "Unexpected error"
      ("Tempest API returned status " ++ formatInt resp.StatusCode) resp.StatusCode
      (append_ne_empty _ _ hne) ⟨hrange.1, hrange.2, h204, h304⟩).2
  · intro h304
    rw [h304]
    exact respond_sendJSONError_304 _ _

/-- Witness of C6, amended: identifier `a`, an upstream that answers 418; the details text is
"Tempest API returned status 418". -/
theorem C6_unmapped_status_passed_through_witness :
    ((fetchPhoto (upstreamReplying 418) (requestFor "a")).calls =
       sendJSONError "Unexpected error" ("Tempest API returned status " ++ formatInt 418) 418 ∧
     fetchPhotoPanics (upstreamReplying 418) (requestFor "a") = false ∧
     (fetchPhotoResponse (upstreamReplying 418) (requestFor "a")).StatusCode = 418 ∧
     ((418 : Int) ≠ 304 →
       (fetchPhotoResponse (upstreamReplying 418) (requestFor "a")).Header.Get "Content-Type" =
         "application/json" ∧
       (fetchPhotoResponse (upstreamReplying 418) (requestFor "a")).Body = utf8 (renderObject
         [ ("error", .str "Unexpected error"),
           ("details", .str ("Tempest API returned status " ++ formatInt 418)),
           ("status", .num 418) ] ++ "\n")) ∧
     ((418 : Int) = 304 →
       fetchPhotoResponse (upstreamReplying 418) (requestFor "a") =
         { StatusCode := 304, Header := [], Body := [] })) ∧
    "Tempest API returned status " ++ formatInt 418 = "Tempest API returned status 418" :=
  ⟨C6_unmapped_status_passed_through (upstreamReplying 418) (requestFor "a")
    { StatusCode := 418, Header := [("Content-Type", ["image/jpeg"])],
      Body := [[255, 216], [255]] }
    (by decide) rfl rfl (by decide) (by decide), by decide⟩

/-- C7: the request handed to `client.Do` carries a context with a deadline of 20 seconds
(20,000,000,000 ns). When `client.Do` fails and `ctx.Err()` is `DeadlineExceeded`, the client
gets status 408 and the error "Request timeout"; when it fails with any other value of
`ctx.Err()`, the client gets status 500 and the error "Connection failed" with the error text in
the details. The status is 408 exactly in the first case. -/
theorem C7_timeout_or_connection_failure (env : Env) (r : Request)
    (hid : r.Query.Get "id" ≠ "")
    (hparse : env.parseError (apiURL (r.Query.Get "id")) = none) :
    (fetchPhoto env r).upstream =
      [ .newRequest { timeout := 20000000000 } "GET" (apiURL (r.Query.Get "id")),
        .clientDo { ctx := { timeout := 20000000000 }, Method := "GET",
                    URL := apiURL (r.Query.Get "id") } ] ∧
    ∀ (err : String) (ctxErr : CtxErr),
      env.Do (builtRequest (r.Query.Get "id")) = .failure err ctxErr →
      (ctxErr = CtxErr.DeadlineExceeded →
        (fetchPhotoResponse env r).StatusCode = 408 ∧
        (fetchPhotoResponse env r).Header.Get "Content-Type" = "application/json" ∧
        (fetchPhotoResponse env r).Body = utf8 (renderObject
          [ ("error", .str "Request timeout"),
            ("details", .str
              "The image request took too long to process (>20s). The image may be very large."),
            ("status", .num 408) ] ++ "\n")) ∧
      (ctxErr ≠ CtxErr.DeadlineExceeded →
        (fetchPhotoResponse env r).StatusCode = 500 ∧
        (fetchPhotoResponse env r).Header.Get "Content-Type" = "application/json" ∧
        (fetchPhotoResponse env r).Body = utf8 (renderObject
          [ ("error", .str "Connection failed"),
            ("details", .str ("Unable to connect to Tempest API: " ++ err)),
            ("status", .num 500) ] ++ "\n")) ∧
      ((fetchPhotoResponse env r).StatusCode = 408 ↔ ctxErr = CtxErr.DeadlineExceeded) := by
  refine ⟨fetchPhoto_upstream env r hid hparse, ?_⟩
  intro err ctxErr hdo
  have hrun := fetchPhoto_failure env r err ctxErr hid hparse hdo
  have hT : "The image request took too long to process (>20s). The image may be very large."
      ≠ "" := by decide
  have hC : "Unable to connect to Tempest API: " ++ err ≠ "" :=
    append_ne_empty _ _ (by decide)
  by_cases hc : ctxErr = CtxErr.DeadlineExceeded
  · rw [if_pos hc] at hrun
    rw [fetchPhotoResponse, hrun]
    have h := respond_sendJSONError_details "Request timeout" _ 408 hT (by decide)
    exact ⟨fun _ => h, fun hn => absurd hc hn, fun _ => hc, fun _ => h.1⟩
  · rw [if_neg hc] at hrun
    rw [fetchPhotoResponse, hrun]
    have h := respond_sendJSONError_details "Connection failed" _ 500 hC (by decide)
    refine ⟨fun hn => absurd hn hc, fun _ => h, fun h408 => ?_, fun hn => absurd hn hc⟩
    rw [h.1] at h408
    exact absurd h408 (by decide)

/-- Witness of C7: identifier `a`, an upstream whose call fails after the deadline. -/
theorem C7_timeout_or_connection_failure_witness :
    (fetchPhoto (upstreamFailing .DeadlineExceeded) (requestFor "a")).upstream =
      [ .newRequest { timeout := 20000000000 } "GET"
          (apiURL ((requestFor "a").Query.Get "id")),
        .clientDo { ctx := { timeout := 20000000000 }, Method := "GET",
                    URL := apiURL ((requestFor "a").Query.Get "id") } ] ∧
    (fetchPhotoResponse (upstreamFailing .DeadlineExceeded) (requestFor "a")).StatusCode = 408 :=
  have h := C7_timeout_or_connection_failure (upstreamFailing .DeadlineExceeded)
    (requestFor "a") (by decide) rfl
  ⟨h.1, ((h.2 "dial tcp: connection refused" .DeadlineExceeded rfl).1 rfl).1⟩

/-- C8 as stated fails at the status codes 304 and 99, which the handler passes to
`sendJSONError` when the upstream answers with them. With 304 the response has no
`Content-Type` header and no body; with 99 `WriteHeader` panics and there is no response. -/
theorem C8_no_json_error_with_304_or_99 :
    (fetchPhoto (upstreamReplying 304) (requestFor "b")).calls =
      sendJSONError "Unexpected error" "Tempest API returned status 304" 304 ∧
    (respond (sendJSONError "Unexpected error" "Tempest API returned status 304" 304)).Header.Get
      "Content-Type" = "" ∧
    (respond (sendJSONError "Unexpected error" "Tempest API returned status 304" 304)).Body
      = [] ∧
    (fetchPhoto (upstreamReplying 99) (requestFor "b")).calls =
      sendJSONError "Unexpected error" "Tempest API returned status 99" 99 ∧
    panics (sendJSONError "Unexpected error" "Tempest API returned status 99" 99) = true ∧
    respond (sendJSONError "Unexpected error" "Tempest API returned status 99" 99) =
      noResponse := by
  refine ⟨by rfl, by rfl, by rfl, by rfl, by rfl, by rfl⟩

/-- C8, amended: for a status code in 200..999 other than 204 and 304, the response
`sendJSONError` produces has that status code, the header `Content-Type: application/json`,
and as body a JSON object whose `status` member is that status code, whose `error` member is
the message, and whose `details` member is the details string when that is non-empty and is
absent when it is empty; with the status code 304 the response is the status line alone. Every
run of the handler either consists of the calls of one `sendJSONError`, or is the success path
after an upstream 200. -/
theorem C8_error_response_shape (message details : String) (statusCode : Int)
    (env : Env) (r : Request)
    (hc : 200 ≤ statusCode ∧ statusCode ≤ 999 ∧ statusCode ≠ 204 ∧ statusCode ≠ 304) :
    (respond (sendJSONError message details statusCode)).StatusCode = statusCode ∧
    (respond (sendJSONError message details statusCode)).Header.Get "Content-Type" =
      "application/json" ∧
    (∃ o : JSONObject,
      (respond (sendJSONError message details statusCode)).Body =
        utf8 (renderObject o ++ "\n") ∧
      o.lookup "status" = some (.num statusCode) ∧
      o.lookup "error" = some (.str message) ∧
      o.lookup "details" = if details = "" then none else some (.str details)) ∧
    respond (sendJSONError message details 304) =
      { StatusCode := 304, Header := [], Body := [] } ∧
    ((∃ m d c, (fetchPhoto env r).calls = sendJSONError m d c) ∨
      (∃ resp, r.Query.Get "id" ≠ "" ∧
        env.Do (builtRequest (r.Query.Get "id")) = .response resp ∧ resp.StatusCode = 200 ∧
        (fetchPhoto env r).calls =
          [ .headerSet "Content-Type" (resp.Header.Get "Content-Type"),
            .headerSet "Cache-Control" "public, max-age=3600",
            .copy resp.Body ])) := by
  rw [respond_sendJSONError message details statusCode hc]
  refine ⟨rfl, rfl, ⟨ErrorResponse.marshal
    { Error := message, Details := details, Status := statusCode }, rfl, ?_, ?_, ?_⟩,
    respond_sendJSONError_304 message details, ?_⟩
  · exact (marshal_lookup _).2.1
  · exact (marshal_lookup _).1
  · exact (marshal_lookup _).2.2
  · rcases fetchPhoto_forms env r with ⟨_, m, d, c, _, _, hcalls, _⟩ | ⟨resp, _, _, hid, hd, hc, hcalls⟩
    · exact Or.inl ⟨m, d, c, hcalls⟩
    · exact Or.inr ⟨resp, hid, hd, hc, hcalls⟩

/-- Witness of C8, amended: the call the handler makes for a missing identifier, with status
400, and the run for identifier `a` with an upstream that answers 404. -/
theorem C8_error_response_shape_witness :
    (respond (sendJSONError "Image ID required" "Please provide a valid image identifier"
      400)).StatusCode = 400 ∧
    (respond (sendJSONError "Image ID required" "Please provide a valid image identifier"
      400)).Header.Get "Content-Type" = "application/json" ∧
    (∃ o : JSONObject,
      (respond (sendJSONError "Image ID required" "Please provide a valid image identifier"
        400)).Body = utf8 (renderObject o ++ "\n") ∧
      o.lookup "status" = some (.num 400) ∧
      o.lookup "error" = some (.str "Image ID required") ∧
      o.lookup "details" =
        if "Please provide a valid image identifier" = "" then none
        else some (.str "Please provide a valid image identifier")) ∧
    respond (sendJSONError "Image ID required" "Please provide a valid image identifier" 304) =
      { StatusCode := 304, Header := [], Body := [] } ∧
    ((∃ m d c, (fetchPhoto (upstreamReplying 404) (requestFor "a")).calls =
        sendJSONError m d c) ∨
      (∃ resp, (requestFor "a").Query.Get "id" ≠ "" ∧
        (upstreamReplying 404).Do (builtRequest ((requestFor "a").Query.Get "id")) =
          .response resp ∧ resp.StatusCode = 200 ∧
        (fetchPhoto (upstreamReplying 404) (requestFor "a")).calls =
          [ .headerSet "Content-Type" (resp.Header.Get "Content-Type"),
            .headerSet "Cache-Control" "public, max-age=3600",
            .copy resp.Body ])) :=
  C8_error_response_shape "Image ID required" "Please provide a valid image identifier" 400
    (upstreamReplying 404) (requestFor "a") (by decide)

/-- C9 as stated fails: identifier `a` with an upstream answering 418 and with one answering
502 are two failing requests of the same kind, `unexpected_upstream_status`, and their client
statuses are 418 and 502. -/
theorem C9_unexpected_kind_two_statuses :
    errorKind (upstreamReplying 418) (requestFor "a") = some .unexpected_upstream_status ∧
    errorKind (upstreamReplying 502) (requestFor "a") = some .unexpected_upstream_status ∧
    (fetchPhotoResponse (upstreamReplying 418) (requestFor "a")).StatusCode = 418 ∧
    (fetchPhotoResponse (upstreamReplying 502) (requestFor "a")).StatusCode = 502 ∧
    (fetchPhotoResponse (upstreamReplying 418) (requestFor "a")).StatusCode ≠
      (fetchPhotoResponse (upstreamReplying 502) (requestFor "a")).StatusCode := by
  refine ⟨by rfl, by rfl, by rfl, by rfl, by decide⟩

/-- C9, amended: two failing requests of the same error kind other than
`unexpected_upstream_status` get the same client status, the one the table gives the kind; a
request of kind `unexpected_upstream_status` whose upstream status code lies in 200..999 gets
that code as its client status. -/
theorem C9_kind_fixes_status (env1 env2 : Env) (r1 r2 : Request) (k : ErrorKind)
    (h1 : errorKind env1 r1 = some k) (h2 : errorKind env2 r2 = some k) :
    (k ≠ .unexpected_upstream_status →
      (fetchPhotoResponse env1 r1).StatusCode = (fetchPhotoResponse env2 r2).StatusCode ∧
      kindStatus k = some (fetchPhotoResponse env1 r1).StatusCode) ∧
    (k = .unexpected_upstream_status →
      ∃ resp1 resp2,
        env1.Do (builtRequest (r1.Query.Get "id")) = .response resp1 ∧
        env2.Do (builtRequest (r2.Query.Get "id")) = .response resp2 ∧
        (200 ≤ resp1.StatusCode ∧ resp1.StatusCode ≤ 999 →
          (fetchPhotoResponse env1 r1).StatusCode = resp1.StatusCode) ∧
        (200 ≤ resp2.StatusCode ∧ resp2.StatusCode ≤ 999 →
          (fetchPhotoResponse env2 r2).StatusCode = resp2.StatusCode)) := by
  obtain ⟨hf1, hp1⟩ := status_of_errorKind env1 r1 k h1
  obtain ⟨hf2, hp2⟩ := status_of_errorKind env2 r2 k h2
  constructor
  · intro hk
    cases hs : kindStatus k with
    | none => cases k <;> simp [kindStatus] at hs hk
    | some s => rw [hf1 s hs, hf2 s hs]; exact ⟨rfl, rfl⟩
  · intro hk
    have hs : kindStatus k = none := by rw [hk]; rfl
    obtain ⟨resp1, hd1, hs1⟩ := hp1 hs
    obtain ⟨resp2, hd2, hs2⟩ := hp2 hs
    exact ⟨resp1, resp2, hd1, hd2, hs1, hs2⟩

/-- Witness of C9, amended: identifiers `a` and `b`, each answered 204 by the upstream, both of
kind `not_found`. -/
theorem C9_kind_fixes_status_witness :
    (ErrorKind.not_found ≠ .unexpected_upstream_status →
      (fetchPhotoResponse (upstreamReplying 204) (requestFor "a")).StatusCode =
        (fetchPhotoResponse (upstreamReplying 204) (requestFor "b")).StatusCode ∧
      kindStatus .not_found =
        some (fetchPhotoResponse (upstreamReplying 204) (requestFor "a")).StatusCode) ∧
    (ErrorKind.not_found = .unexpected_upstream_status →
      ∃ resp1 resp2,
        (upstreamReplying 204).Do (builtRequest ((requestFor "a").Query.Get "id")) =
          .response resp1 ∧
        (upstreamReplying 204).Do (builtRequest ((requestFor "b").Query.Get "id")) =
          .response resp2 ∧
        (200 ≤ resp1.StatusCode ∧ resp1.StatusCode ≤ 999 →
          (fetchPhotoResponse (upstreamReplying 204) (requestFor "a")).StatusCode =
            resp1.StatusCode) ∧
        (200 ≤ resp2.StatusCode ∧ resp2.StatusCode ≤ 999 →
          (fetchPhotoResponse (upstreamReplying 204) (requestFor "b")).StatusCode =
            resp2.StatusCode)) :=
  C9_kind_fixes_status (upstreamReplying 204) (upstreamReplying 204) (requestFor "a")
    (requestFor "b") .not_found rfl rfl

/-- C10 as stated fails at the upstream codes 304 and 99. With 304 the client gets the status
line alone, which is neither the image form nor a JSON error; with 99 `WriteHeader` panics and
the client gets no response at all. -/
theorem C10_neither_form_at_304_or_99 :
    fetchPhotoResponse (upstreamReplying 304) (requestFor "a") =
      { StatusCode := 304, Header := [], Body := [] } ∧
    ¬ (∃ contentType body,
        (fetchPhoto (upstreamReplying 304) (requestFor "a")).calls =
          [ .headerSet "Content-Type" contentType,
            .headerSet "Cache-Control" "public, max-age=3600",
            .copy body ] ∧
        fetchPhotoResponse (upstreamReplying 304) (requestFor "a") =
          { StatusCode := 200
            Header := [("Cache-Control", ["public, max-age=3600"]),
              ("Content-Type", [contentType])]
            Body := body.flatten }) ∧
    ¬ (∃ message details statusCode,
        statusCode ≠ 200 ∧
        (fetchPhoto (upstreamReplying 304) (requestFor "a")).calls =
          sendJSONError message details statusCode ∧
        fetchPhotoResponse (upstreamReplying 304) (requestFor "a") =
          { StatusCode := statusCode
            Header := [("Content-Type", ["application/json"])]
            Body := Encode { Error := message, Details := details, Status := statusCode } }) ∧
    fetchPhotoPanics (upstreamReplying 99) (requestFor "a") = true ∧
    fetchPhotoResponse (upstreamReplying 99) (requestFor "a") = noResponse := by
  have h304 : fetchPhotoResponse (upstreamReplying 304) (requestFor "a") =
      { StatusCode := 304, Header := [], Body := [] } := by rfl
  refine ⟨h304, ?_, ?_, by rfl, by rfl⟩
  · rintro ⟨ct, body, _, h⟩
    rw [h304] at h
    simp at h
  · rintro ⟨m, d, c, _, _, h⟩
    rw [h304] at h
    simp at h

/-- C10, amended: when the status of the upstream's reply, if it replies, lies in 200..999,
the run of the handler does not panic and yields one response, of one of three forms. It is the
image form (the two header calls and the body copy; status 200 and the copied bytes as body)
exactly when the identifier is non-empty, the request is built and the upstream replied with
status 200; it is the status line 304 alone exactly when the upstream replied with status 304;
and it is the JSON error form (the calls of one `sendJSONError`, with a status other than 200)
exactly when neither is so. -/
theorem C10_exactly_one_form (env : Env) (r : Request)
    (hfinal : ∀ resp, env.Do (builtRequest (r.Query.Get "id")) = .response resp →
      200 ≤ resp.StatusCode ∧ resp.StatusCode ≤ 999) :
    fetchPhotoPanics env r = false ∧
    ((∃ contentType body,
        (fetchPhoto env r).calls =
          [ .headerSet "Content-Type" contentType,
            .headerSet "Cache-Control" "public, max-age=3600",
            .copy body ] ∧
        fetchPhotoResponse env r =
          { StatusCode := 200
            Header := [("Cache-Control", ["public, max-age=3600"]),
              ("Content-Type", [contentType])]
            Body := body.flatten }) ↔
      (r.Query.Get "id" ≠ "" ∧ env.parseError (apiURL (r.Query.Get "id")) = none ∧
        ∃ resp, env.Do (builtRequest (r.Query.Get "id")) = .response resp ∧
          resp.StatusCode = 200)) ∧
    (fetchPhotoResponse env r = { StatusCode := 304, Header := [], Body := [] } ↔
      (r.Query.Get "id" ≠ "" ∧ env.parseError (apiURL (r.Query.Get "id")) = none ∧
        ∃ resp, env.Do (builtRequest (r.Query.Get "id")) = .response resp ∧
          resp.StatusCode = 304)) ∧
    ((∃ message details statusCode,
        statusCode ≠ 200 ∧
        (fetchPhoto env r).calls = sendJSONError message details statusCode ∧
        fetchPhotoResponse env r =
          { StatusCode := statusCode
            Header := [("Content-Type", ["application/json"])]
            Body := Encode { Error := message, Details := details, Status := statusCode } }) ↔
      (¬ (r.Query.Get "id" ≠ "" ∧ env.parseError (apiURL (r.Query.Get "id")) = none ∧
          ∃ resp, env.Do (builtRequest (r.Query.Get "id")) = .response resp ∧
            resp.StatusCode = 200) ∧
        ¬ (r.Query.Get "id" ≠ "" ∧ env.parseError (apiURL (r.Query.Get "id")) = none ∧
          ∃ resp, env.Do (builtRequest (r.Query.Get "id")) = .response resp ∧
            resp.StatusCode = 304))) := by
  rw [← upstreamReplied200_iff]
  rcases fetchPhoto_forms env r with ⟨k, m, d, c, hk, hr, hcalls, hne, hfix, hpass⟩ | ⟨resp, _, hr, hid, hd, h200, hcalls⟩
  · have hc := failure_code_final env r k c hfinal hk hfix hpass
    have hQ := failure_code_304_iff env r k m d c hk hcalls hfix hpass
    have hnr : ¬ upstreamReplied200 env r = true := by
      rw [hr]
      decide
    have hnA : ¬ ∃ contentType body,
        (fetchPhoto env r).calls =
          [ .headerSet "Content-Type" contentType,
            .headerSet "Cache-Control" "public, max-age=3600",
            .copy body ] ∧
        fetchPhotoResponse env r =
          { StatusCode := 200
            Header := [("Cache-Control", ["public, max-age=3600"]),
              ("Content-Type", [contentType])]
            Body := body.flatten } := by
      rintro ⟨ct, body, hcs, _⟩
      rw [hcalls] at hcs
      exact absurd hcs (sendJSONError_ne_success m d c ct body)
    refine ⟨?_, ⟨fun h => absurd h hnA, fun h => absurd h hnr⟩, ?_, ?_⟩
    · rw [fetchPhotoPanics, hcalls]
      exact panics_sendJSONError m d c ⟨hc.1, hc.2.1⟩
    · rw [← hQ]
      constructor
      · intro h
        have hs := respond_sendJSONError_status m d c ⟨hc.1, hc.2.1⟩
        rw [fetchPhotoResponse, hcalls] at h
        rw [h] at hs
        exact hs.symm
      · intro h304
        rw [fetchPhotoResponse, hcalls, h304]
        exact respond_sendJSONError_304 m d
    · rw [← hQ]
      constructor
      · rintro ⟨m', d', c', _, hcs, hresp⟩
        refine ⟨hnr, fun h304 => ?_⟩
        rw [fetchPhotoResponse, hcalls, h304, respond_sendJSONError_304] at hresp
        simp at hresp
      · rintro ⟨_, h304⟩
        exact ⟨m, d, c, hne, hcalls, by
          rw [fetchPhotoResponse, hcalls,
            respond_sendJSONError m d c ⟨hc.1, hc.2.1, hc.2.2, h304⟩]⟩
  · have hresp : fetchPhotoResponse env r =
        { StatusCode := 200
          Header := [("Cache-Control", ["public, max-age=3600"]),
            ("Content-Type", [resp.Header.Get "Content-Type"])]
          Body := resp.Body.flatten } := by
      rw [fetchPhotoResponse, hcalls, respond_success]
    refine ⟨?_, ⟨fun _ => hr, fun _ => ⟨_, _, hcalls, hresp⟩⟩, ?_, ?_⟩
    · rw [fetchPhotoPanics, hcalls]
      exact panics_success _ _
    · constructor
      · intro h
        rw [hresp] at h
        simp at h
      · rintro ⟨_, _, resp', hd', h304⟩
        rw [hd] at hd'
        have hrr : resp = resp' := DoResult.response.inj hd'
        rw [← hrr, h200] at h304
        exact absurd h304 (by decide)
    · constructor
      · rintro ⟨m, d, c, _, hcs, _⟩
        rw [hcalls] at hcs
        exact absurd hcs.symm (sendJSONError_ne_success m d c _ _)
      · rintro ⟨h, _⟩
        exact absurd hr h

/-- Witness of C10, amended: identifier `a`, an upstream that answers 418. -/
theorem C10_exactly_one_form_witness :
    fetchPhotoPanics (upstreamReplying 418) (requestFor "a") = false ∧
    ((∃ contentType body,
        (fetchPhoto (upstreamReplying 418) (requestFor "a")).calls =
          [ .headerSet "Content-Type" contentType,
            .headerSet "Cache-Control" "public, max-age=3600",
            .copy body ] ∧
        fetchPhotoResponse (upstreamReplying 418) (requestFor "a") =
          { StatusCode := 200
            Header := [("Cache-Control", ["public, max-age=3600"]),
              ("Content-Type", [contentType])]
            Body := body.flatten }) ↔
      ((requestFor "a").Query.Get "id" ≠ "" ∧
        (upstreamReplying 418).parseError (apiURL ((requestFor "a").Query.Get "id")) = none ∧
        ∃ resp, (upstreamReplying 418).Do (builtRequest ((requestFor "a").Query.Get "id")) =
            .response resp ∧
          resp.StatusCode = 200)) ∧
    (fetchPhotoResponse (upstreamReplying 418) (requestFor "a") =
        { StatusCode := 304, Header := [], Body := [] } ↔
      ((requestFor "a").Query.Get "id" ≠ "" ∧
        (upstreamReplying 418).parseError (apiURL ((requestFor "a").Query.Get "id")) = none ∧
        ∃ resp, (upstreamReplying 418).Do (builtRequest ((requestFor "a").Query.Get "id")) =
            .response resp ∧
          resp.StatusCode = 304)) ∧
    ((∃ message details statusCode,
        statusCode ≠ 200 ∧
        (fetchPhoto (upstreamReplying 418) (requestFor "a")).calls =
          sendJSONError message details statusCode ∧
        fetchPhotoResponse (upstreamReplying 418) (requestFor "a") =
          { StatusCode := statusCode
            Header := [("Content-Type", ["application/json"])]
            Body := Encode { Error := message, Details := details, Status := statusCode } }) ↔
      (¬ ((requestFor "a").Query.Get "id" ≠ "" ∧
        (upstreamReplying 418).parseError (apiURL ((requestFor "a").Query.Get "id")) = none ∧
        ∃ resp, (upstreamReplying 418).Do (builtRequest ((requestFor "a").Query.Get "id")) =
            .response resp ∧
          resp.StatusCode = 200) ∧
        ¬ ((requestFor "a").Query.Get "id" ≠ "" ∧
        (upstreamReplying 418).parseError (apiURL ((requestFor "a").Query.Get "id")) = none ∧
        ∃ resp, (upstreamReplying 418).Do (builtRequest ((requestFor "a").Query.Get "id")) =
            .response resp ∧
          resp.StatusCode = 304))) :=
  C10_exactly_one_form (upstreamReplying 418) (requestFor "a")
    (fun resp h => by
      have h' : resp.StatusCode = 418 := by
        cases h
        rfl
      rw [h']
      decide)

/-- C12: the handler answers with the missing-identifier error exactly when the identifier is
the empty string. For every other identifier its first call towards the upstream is
`NewRequestWithContext` with the URL that has the identifier, character for character, between
`/ImageApiProxy/image/` and `/preview/?exifrotate=...`; two different identifiers never give the
same URL. -/
theorem C12_only_emptiness_checked (env : Env) (r : Request) :
    ((fetchPhoto env r).errorField = some "Image ID required" ↔ r.Query.Get "id" = "") ∧
    (errorKind env r = some .missing_identifier ↔ r.Query.Get "id" = "") ∧
    (r.Query.Get "id" ≠ "" →
      (fetchPhoto env r).upstream.head? =
        some (.newRequest { timeout := 20 * Second } "GET" (apiURL (r.Query.Get "id")))) ∧
    apiURL (r.Query.Get "id") =
      "https://us-central1-htempest-preproduction-prod.cloudfunctions.net/ImageApiProxy/image/"
        ++ r.Query.Get "id"
        ++ "/preview/?exifrotate=1&MaxSize=9999&ProofWatermark=FALSE&source=G&WithCrop=TRUE" ∧
    (∀ other : String, apiURL other = apiURL (r.Query.Get "id") → other = r.Query.Get "id") := by
  refine ⟨?_, errorKind_missing_iff env r, ?_, ?_, ?_⟩
  · rw [errorField_eq, ← errorKind_missing_iff env r]
    constructor
    · intro h
      cases hk : errorKind env r with
      | none => rw [hk] at h; cases h
      | some k =>
        rw [hk] at h
        have hm : kindMessage k = kindMessage .missing_identifier := Option.some.inj h
        rw [kindMessage_injective k _ hm]
    · intro h
      rw [h]
      rfl
  · intro hid
    cases hp : env.parseError (apiURL (r.Query.Get "id")) with
    | some err => rw [fetchPhoto_parse_error env r err hid hp]; rfl
    | none => rw [fetchPhoto_upstream env r hid hp]; rfl
  · rfl
  · intro other h
    exact apiURL_injective other _ h

/-- C13: in every run the calls on the writer come in the order headers, status line, body.
On the success path the calls are the two header calls, `Content-Type` and `Cache-Control`,
and then the body copy, and no byte has been written when the copy starts; on every failure
path they are the `Content-Type: application/json` header call, then `WriteHeader`, then the
body. -/
theorem C13_headers_before_body (env : Env) (r : Request) :
    (fetchPhoto env r).calls.Pairwise (fun a b => a.phase < b.phase ∨ (a.phase = 0 ∧ b.phase = 0)) ∧
    (upstreamReplied200 env r = true →
      ∃ resp, env.Do (builtRequest (r.Query.Get "id")) = .response resp ∧
        (fetchPhoto env r).calls =
          [ .headerSet "Content-Type" (resp.Header.Get "Content-Type"),
            .headerSet "Cache-Control" "public, max-age=3600" ] ++ [ .copy resp.Body ] ∧
        ([ Call.headerSet "Content-Type" (resp.Header.Get "Content-Type"),
           Call.headerSet "Cache-Control" "public, max-age=3600" ].foldl
            ResponseRecorder.apply ResponseRecorder.fresh).Body = [] ∧
        ([ Call.headerSet "Content-Type" (resp.Header.Get "Content-Type"),
           Call.headerSet "Cache-Control" "public, max-age=3600" ].foldl
            ResponseRecorder.apply ResponseRecorder.fresh).wroteHeader = false) ∧
    (upstreamReplied200 env r = false →
      ∃ message details statusCode,
        (fetchPhoto env r).calls =
          [ .headerSet "Content-Type" "application/json",
            .writeHeader statusCode,
            .encode { Error := message, Details := details, Status := statusCode } ]) := by
  rcases fetchPhoto_forms env r with ⟨_, m, d, c, _, hr, hcalls, _⟩ | ⟨resp, _, hr, _, hd, _, hcalls⟩
  · refine ⟨?_, ?_, ?_⟩
    · rw [hcalls]
      simp [sendJSONError, Call.phase]
    · intro h
      rw [hr] at h
      cases h
    · intro _
      exact ⟨m, d, c, hcalls⟩
  · refine ⟨?_, ?_, ?_⟩
    · rw [hcalls]
      simp [Call.phase]
    · intro _
      exact ⟨resp, hd, hcalls, rfl, rfl⟩
    · intro h
      rw [hr] at h
      cases h

/-- C15: the `error` member a failing run encodes is the message of its branch, the ten
messages are pairwise distinct, and so two failing runs that encode the same `error` string
fall into the same error kind. -/
theorem C15_error_string_identifies_kind (env1 env2 : Env) (r1 r2 : Request)
    (k1 k2 : ErrorKind)
    (h1 : errorKind env1 r1 = some k1) (h2 : errorKind env2 r2 = some k2)
    (hsame : (fetchPhoto env1 r1).errorField = (fetchPhoto env2 r2).errorField) :
    k1 = k2 ∧
    (fetchPhoto env1 r1).errorField = some (kindMessage k1) ∧
    (List.map kindMessage
      [ .missing_identifier, .request_construction_failure, .connection_failure, .timeout,
        .not_found, .access_denied, .authentication_required, .upstream_internal_error,
        .upstream_unavailable, .unexpected_upstream_status ]).Nodup := by
  have e1 := errorField_eq env1 r1
  have e2 := errorField_eq env2 r2
  rw [h1] at e1
  rw [h2] at e2
  refine ⟨?_, e1, by decide⟩
  rw [e1, e2] at hsame
  exact kindMessage_injective k1 k2 (Option.some.inj hsame)

/-- Witness of C15: an upstream 404, passed through, and an upstream 418 both encode
"Unexpected error" and are of one kind; an upstream 204, answered with status 404 as well,
encodes "Image not found", and a failed connection and an upstream 500, both answered with
status 500, encode "Connection failed" and "Tempest API error". -/
theorem C15_error_string_identifies_kind_witness :
    (ErrorKind.unexpected_upstream_status = ErrorKind.unexpected_upstream_status ∧
      (fetchPhoto (upstreamReplying 404) (requestFor "a")).errorField =
        some (kindMessage .unexpected_upstream_status) ∧
      (List.map kindMessage
        [ .missing_identifier, .request_construction_failure, .connection_failure, .timeout,
          .not_found, .access_denied, .authentication_required, .upstream_internal_error,
          .upstream_unavailable, .unexpected_upstream_status ]).Nodup) ∧
    (fetchPhoto (upstreamReplying 204) (requestFor "a")).errorField = some "Image not found" ∧
    (fetchPhoto (upstreamReplying 404) (requestFor "a")).errorField = some "Unexpected error" ∧
    (fetchPhotoResponse (upstreamReplying 204) (requestFor "a")).StatusCode =
      (fetchPhotoResponse (upstreamReplying 404) (requestFor "a")).StatusCode ∧
    (fetchPhoto (upstreamFailing .none) (requestFor "a")).errorField =
      some "Connection failed" ∧
    (fetchPhoto (upstreamReplying 500) (requestFor "a")).errorField =
      some "Tempest API error" ∧
    (fetchPhotoResponse (upstreamFailing .none) (requestFor "a")).StatusCode =
      (fetchPhotoResponse (upstreamReplying 500) (requestFor "a")).StatusCode :=
  ⟨C15_error_string_identifies_kind (upstreamReplying 404) (upstreamReplying 418)
      (requestFor "a") (requestFor "b") .unexpected_upstream_status
      .unexpected_upstream_status rfl rfl rfl,
    rfl, rfl, rfl, rfl, rfl, rfl⟩

end Tempest
